import Mathlib

/-!
# CurveFS command-line tools (tools-v2): topology reconciliation and copyset check

A shallow embedding of

* `pkg/cli/command/curvefs/create/topology/server.go`
  (`scanServers`, `removeServers`, `createServers`),
* `pkg/cli/command/curvefs/check/copyset/copyset.go` (`CopysetCommand.RunCommand`),
* `pkg/cli/command/curvefs/query/metaserver/metaserver.go` (`MetaserverCommand.Init`), and
* `pkg/cli/command/curvefs/status/metaserver/metaserver.go`
  (`MetaserverCommand.Init`, `MetaserverCommand.RunCommand`),

followed by theorems about them.

Conventions of the embedding.

* Go slices are lists; `append` is `++`.
* `uint32` / `uint64` values are natural numbers (no arithmetic is done on them).
* A `map[string]string` row is an association list with at most one pair per key;
  `row[k] = v` is `setCol`, `row[k]` is `getCol`.
* A command object is a record; a method is a function from the record (and the
  remote calls it makes, given as functions) to its return value and the new record.
* `basecmd.GetRpcResponse` returns a pair `(result, err)`; it is a parameter of
  the methods that call it.
* A `for ... range` loop has one range variable for all its iterations. Where the code
  keeps pointers into that variable (the create loop of `scanServers`), the variable is
  part of the loop state and the pointers are read when the loop is over.
* A Go `error` is `Option GoError`: `none` is `nil`, and an error value is kept as the
  call that built it (`fmt.Errorf` with its format and operands).
* The channel of the status command is the list of the results in their order of
  arrival; a receive from a channel on which nothing more arrives blocks for ever.
-/

namespace Curve

/-! ## Package `internal/error` (used, not defined, by the embedded files) -/

/-- A command error: the `CmdError` record, read through `TypeCode()` and `.Message`. -/
structure CmdError where
  Code : Int
  Message : String
deriving DecidableEq, Repr

/-- The type code of a successful outcome. -/
def CODE_SUCCESS : Int := 0

/-- Method `TypeCode()` of a command error. -/
def CmdError.TypeCode (e : CmdError) : Int := e.Code

/-- The value `cmderror.ErrSuccess()`: callers test it with `TypeCode() != CODE_SUCCESS`. -/
def ErrSuccess : CmdError := ⟨CODE_SUCCESS, "success"⟩

/-! ## Rows and tables -/

/-- A row `map[string]string`. -/
abbrev Row := List (String × String)

/-- Assignment `row[k] = v`. -/
def setCol : Row → String → String → Row
  | [], k, v => [(k, v)]
  | (k', v') :: r, k, v => if k' = k then (k, v) :: r else (k', v') :: setCol r k v

/-- Lookup `row[k]`; a missing key reads as the empty string. -/
def getCol (r : Row) (k : String) : String :=
  match r.lookup k with
  | some v => v
  | none => ""

/-- Whether the row has an entry for the key. -/
def hasCol (r : Row) (k : String) : Bool := (r.lookup k).isSome

/-! ## Protocol records of `proto/curvefs/proto/topology` -/

/-- Status code of a topology response. -/
abbrev TopoStatusCode := Int

/-- The status `TopoStatusCode_TOPO_OK`. -/
def TopoStatusCode_TOPO_OK : TopoStatusCode := 0

/-- Record of a registered server as listed by the cluster. -/
structure ServerInfo where
  ServerID : Nat
  HostName : String
  InternalIp : String
  InternalPort : Nat
  ExternalIp : String
  ExternalPort : Nat
  ZoneID : Nat
  ZoneName : String
  PoolID : Nat
  PoolName : String
deriving DecidableEq, Repr

/-- Record of a zone of the cluster. -/
structure ZoneInfo where
  ZoneID : Nat
  ZoneName : String
  PoolID : Nat
deriving DecidableEq, Repr

/-- Request of `ListZoneServer`. -/
structure ListZoneServerRequest where
  ZoneID : Nat
deriving DecidableEq, Repr

/-- Response of `ListZoneServer`. -/
structure ListZoneServerResponse where
  StatusCode : TopoStatusCode
  ServerInfo : List ServerInfo
deriving DecidableEq, Repr

/-- Request of `DeleteServer`. -/
structure DeleteServerRequest where
  ServerID : Nat
deriving DecidableEq, Repr

/-- Response of `DeleteServer`. -/
structure DeleteServerResponse where
  StatusCode : TopoStatusCode
deriving DecidableEq, Repr

/-- Request of `RegistServer`. -/
structure ServerRegistRequest where
  HostName : String
  InternalIp : String
  InternalPort : Nat
  ExternalIp : String
  ExternalPort : Nat
  ZoneName : String
  PoolName : String
deriving DecidableEq, Repr

/-- Response of `RegistServer`. -/
structure ServerRegistResponse where
  StatusCode : TopoStatusCode
deriving DecidableEq, Repr

/-- Getter `GetStatusCode()` of a response pointer: the default on `nil`. -/
def ListZoneServerResponse.GetStatusCode : Option ListZoneServerResponse → TopoStatusCode
  | some r => r.StatusCode
  | none => TopoStatusCode_TOPO_OK

/-- Getter `GetServerInfo()` of a response pointer: empty on `nil`. -/
def ListZoneServerResponse.GetServerInfo :
    Option ListZoneServerResponse → List Curve.ServerInfo
  | some r => r.ServerInfo
  | none => []

/-! ## `create/topology/server.go` -/

/-- A desired server of the topology file. -/
structure Server where
  Name : String
  InternalIp : String
  InternalPort : Nat
  ExternalIp : String
  ExternalPort : Nat
  ZoneName : String
  PoolName : String
deriving DecidableEq, Repr

/-- The constant `TYPE_SERVER`. -/
def TYPE_SERVER : String := "server"

/-- Column names and operation labels of the topology table; they are declared in
another file of package `topology` and are taken as given. -/
structure RowConsts where
  ROW_NAME : String
  ROW_TYPE : String
  ROW_OPERATION : String
  ROW_PARENT : String
  ROW_VALUE_ADD : String
  ROW_VALUE_DEL : String
deriving DecidableEq, Repr

/-- The desired topology read from the topology file: its servers. -/
structure Topology where
  Servers : List Server
deriving DecidableEq, Repr

/-- The fields of `TopologyCommand` that the server phase reads and writes. -/
structure TopologyCommand where
  clusterZonesInfo : List ZoneInfo
  clusterServersInfo : List ServerInfo
  topology : Topology
  deleteServer : List DeleteServerRequest
  createServer : List ServerRegistRequest
  Table : List Row
deriving DecidableEq, Repr

/-- Loop of `slices.IndexFunc`, at running index `i`. -/
def IndexFunc.go {α : Type} (f : α → Bool) : List α → Nat → Int
  | [], _ => -1
  | x :: xs, i => if f x then (i : Int) else IndexFunc.go f xs (i + 1)

/-- The function `slices.IndexFunc`: first index satisfying `f`, or `-1`. -/
def IndexFunc {α : Type} (s : List α) (f : α → Bool) : Int := IndexFunc.go f s 0

/-- Method `listZoneServer`: one `ListZoneServer` call through `GetRpcResponse`. -/
def listZoneServer (GetRpcResponse : ListZoneServerRequest → ListZoneServerResponse × CmdError)
    (zoneId : Nat) : Option ListZoneServerResponse × CmdError :=
  let request : ListZoneServerRequest := ⟨zoneId⟩
  let (result, err) := GetRpcResponse request
  if err.TypeCode ≠ CODE_SUCCESS then (none, err)
  else (some result, ErrSuccess)

/-- The closure `compare` of `scanServers`. -/
def scanServers.compare (server : Server) (serverInfo : ServerInfo) : Bool :=
  server.Name == serverInfo.HostName && server.ZoneName == serverInfo.ZoneName
    && server.PoolName == serverInfo.PoolName

/-- First loop of `scanServers`: list the servers of every zone. -/
def scanServers.scan (ErrListPool : TopoStatusCode → CmdError)
    (GetRpcResponse : ListZoneServerRequest → ListZoneServerResponse × CmdError) :
    List ZoneInfo → TopologyCommand → Option CmdError × TopologyCommand
  | [], tCmd => (none, tCmd)
  | zone :: zones, tCmd =>
    let (response, err) := listZoneServer GetRpcResponse zone.ZoneID
    if err.TypeCode ≠ CODE_SUCCESS then (some err, tCmd)
    else if ListZoneServerResponse.GetStatusCode response ≠ TopoStatusCode_TOPO_OK then
      (some (ErrListPool (ListZoneServerResponse.GetStatusCode response)), tCmd)
    else
      scanServers.scan ErrListPool GetRpcResponse zones
        { tCmd with clusterServersInfo :=
            tCmd.clusterServersInfo ++ ListZoneServerResponse.GetServerInfo response }

/-- Body of the loop "update delete server". -/
def scanServers.updateDelete (c : RowConsts) (tCmd : TopologyCommand)
    (serverInfo : ServerInfo) : TopologyCommand :=
  let index := IndexFunc tCmd.topology.Servers (fun server => scanServers.compare server serverInfo)
  if index = -1 then
    let id := serverInfo.ServerID
    let request : DeleteServerRequest := ⟨id⟩
    let row : Row := []
    let row := setCol row c.ROW_NAME serverInfo.HostName
    let row := setCol row c.ROW_TYPE TYPE_SERVER
    let row := setCol row c.ROW_OPERATION c.ROW_VALUE_DEL
    let row := setCol row c.ROW_PARENT serverInfo.ZoneName
    { tCmd with deleteServer := tCmd.deleteServer ++ [request], Table := tCmd.Table ++ [row] }
  else tCmd

/-- A registration request as the create loop of `scanServers` builds it: each of its seven
fields is a pointer to a field of the range variable `server`. A pointer is given by what it
reads from the value that the variable holds. -/
structure ServerRegistRequest.Ref where
  HostName : Server → String
  InternalIp : Server → String
  InternalPort : Server → Nat
  ExternalIp : Server → String
  ExternalPort : Server → Nat
  ZoneName : Server → String
  PoolName : Server → String

/-- The request read through its pointers while the range variable holds `server`. -/
def ServerRegistRequest.Ref.read (r : ServerRegistRequest.Ref) (server : Server) :
    ServerRegistRequest :=
  { HostName := r.HostName server
    InternalIp := r.InternalIp server
    InternalPort := r.InternalPort server
    ExternalIp := r.ExternalIp server
    ExternalPort := r.ExternalPort server
    ZoneName := r.ZoneName server
    PoolName := r.PoolName server }

/-- State of the loop "update create server". The range variable `server` is one variable
for the whole loop (`none` before the first iteration). `pending` are the requests that the
loop has appended to `tCmd.createServer`; they point into `server`. The requests that
`createServer` held before the loop stay in `tCmd`. -/
structure scanServers.CreateLoop where
  tCmd : TopologyCommand
  server : Option Server
  pending : List ServerRegistRequest.Ref

/-- Body of the loop "update create server": the range variable takes the next element of
`tCmd.topology.Servers`, then the body runs. -/
def scanServers.updateCreate (c : RowConsts) (st : scanServers.CreateLoop)
    (elem : Server) : scanServers.CreateLoop :=
  let server := elem
  let index := IndexFunc st.tCmd.clusterServersInfo
    (fun serverInfo => scanServers.compare server serverInfo)
  if index = -1 then
    let request : ServerRegistRequest.Ref :=
      { HostName := Server.Name
        InternalIp := Server.InternalIp
        InternalPort := Server.InternalPort
        ExternalIp := Server.ExternalIp
        ExternalPort := Server.ExternalPort
        ZoneName := Server.ZoneName
        PoolName := Server.PoolName }
    let row : Row := []
    let row := setCol row c.ROW_NAME server.Name
    let row := setCol row c.ROW_TYPE TYPE_SERVER
    let row := setCol row c.ROW_OPERATION c.ROW_VALUE_ADD
    let row := setCol row c.ROW_PARENT server.ZoneName
    { tCmd := { st.tCmd with Table := st.tCmd.Table ++ [row] }
      server := some server
      pending := st.pending ++ [request] }
  else { st with server := some server }

/-- The command when the loop "update create server" is over: the requests appended by the
loop are read through their pointers, with the value that the range variable holds then. -/
def scanServers.CreateLoop.finish (st : scanServers.CreateLoop) : TopologyCommand :=
  match st.server with
  | none => st.tCmd
  | some server =>
    { st.tCmd with
      createServer := st.tCmd.createServer ++ st.pending.map (fun r => r.read server) }

/-- Method `scanServers`: the returned error and the command afterwards. The requests of
`createServer` are given by the values that their pointers read when the method returns. -/
def scanServers (c : RowConsts) (ErrListPool : TopoStatusCode → CmdError)
    (GetRpcResponse : ListZoneServerRequest → ListZoneServerResponse × CmdError)
    (tCmd : TopologyCommand) : CmdError × TopologyCommand :=
  match scanServers.scan ErrListPool GetRpcResponse tCmd.clusterZonesInfo tCmd with
  | (some err, tCmd) => (err, tCmd)
  | (none, tCmd) =>
    let tCmd := tCmd.clusterServersInfo.foldl (scanServers.updateDelete c) tCmd
    let loop : scanServers.CreateLoop :=
      tCmd.topology.Servers.foldl (scanServers.updateCreate c)
        { tCmd := tCmd, server := none, pending := [] }
    let tCmd := loop.finish
    (ErrSuccess, tCmd)

/-- Method `removeServers`, started on the requests still to send with the requests
already handed to `GetRpcResponse`: the returned error and all requests handed over. -/
def removeServers.loop (ErrDeleteTopology : TopoStatusCode → String → CmdError)
    (GetRpcResponse : DeleteServerRequest → DeleteServerResponse × CmdError) :
    List DeleteServerRequest → List DeleteServerRequest → CmdError × List DeleteServerRequest
  | [], sent => (ErrSuccess, sent)
  | delReuest :: rest, sent =>
    let (result, err) := GetRpcResponse delReuest
    let sent := sent ++ [delReuest]
    if err.TypeCode ≠ CODE_SUCCESS then (err, sent)
    else
      let response := result
      if response.StatusCode ≠ TopoStatusCode_TOPO_OK then
        (ErrDeleteTopology response.StatusCode TYPE_SERVER, sent)
      else removeServers.loop ErrDeleteTopology GetRpcResponse rest sent

/-- Method `removeServers`: the returned error, and the requests handed to
`GetRpcResponse` in call order. -/
def removeServers (ErrDeleteTopology : TopoStatusCode → String → CmdError)
    (GetRpcResponse : DeleteServerRequest → DeleteServerResponse × CmdError)
    (tCmd : TopologyCommand) : CmdError × List DeleteServerRequest :=
  removeServers.loop ErrDeleteTopology GetRpcResponse tCmd.deleteServer []

/-- Method `createServers`, started on the requests still to send with the requests
already handed to `GetRpcResponse`: the returned error and all requests handed over. -/
def createServers.loop (ErrCreateTopology : TopoStatusCode → String → CmdError)
    (GetRpcResponse : ServerRegistRequest → ServerRegistResponse × CmdError) :
    List ServerRegistRequest → List ServerRegistRequest → CmdError × List ServerRegistRequest
  | [], sent => (ErrSuccess, sent)
  | crtReuest :: rest, sent =>
    let (result, err) := GetRpcResponse crtReuest
    let sent := sent ++ [crtReuest]
    if err.TypeCode ≠ CODE_SUCCESS then (err, sent)
    else
      let response := result
      if response.StatusCode ≠ TopoStatusCode_TOPO_OK then
        (ErrCreateTopology response.StatusCode TYPE_SERVER, sent)
      else createServers.loop ErrCreateTopology GetRpcResponse rest sent

/-- Method `createServers`: the returned error, and the requests handed to
`GetRpcResponse` in call order. -/
def createServers (ErrCreateTopology : TopoStatusCode → String → CmdError)
    (GetRpcResponse : ServerRegistRequest → ServerRegistResponse × CmdError)
    (tCmd : TopologyCommand) : CmdError × List ServerRegistRequest :=
  createServers.loop ErrCreateTopology GetRpcResponse tCmd.createServer []

/-! ## `check/copyset/copyset.go` -/

/-- The constant `ROW_COPYSETKEY`. -/
def ROW_COPYSETKEY : String := "copyset key"

/-- The constant `ROW_STATUS`. -/
def ROW_STATUS : String := "status"

/-- The constant `ROW_EXPLAIN`. -/
def ROW_EXPLAIN : String := "explain"

/-- Health statuses (`int32` values) and the table of their names; they are declared in
package `cobrautil` and are taken as given. -/
structure CopysetConsts where
  COPYSET_OK : Int
  COPYSET_NOTEXIST : Int
  CopysetHealthStatus_Str : Int → String

/-- The fields of `CopysetCommand` that `RunCommand` reads and writes. The map
`key2Copyset` is the list of its entries in the order in which `range` visits them; a `nil`
status pointer is `none`. -/
structure CopysetCommand (ι : Type) where
  key2Copyset : List (Nat × Option ι)
  Table : List Row
  Error : CmdError

/-- Inner loop of `RunCommand` over the errors of one copyset, on `(explain, errs)`. -/
def RunCommand.explainStep (acc : String × List CmdError) (e : CmdError) :
    String × List CmdError :=
  (acc.1 ++ (e.Message ++ "|"), acc.2 ++ [e])

/-- Body of the loop of `RunCommand` over the map, on `(rows, errs)`. The health check takes
the status pointer. -/
def RunCommand.body {ι : Type} (k : CopysetConsts)
    (CheckCopySetHealth : Option ι → Int × List CmdError)
    (acc : List Row × List CmdError) (kv : Nat × Option ι) : List Row × List CmdError :=
  let (rows, errs) := acc
  let row : Row := []
  let row := setCol row ROW_COPYSETKEY (toString kv.1)
  match kv.2 with
  | none =>
    let row := setCol row ROW_STATUS (k.CopysetHealthStatus_Str k.COPYSET_NOTEXIST)
    (rows ++ [row], errs)
  | some v =>
    let (status, errsCheck) := CheckCopySetHealth (some v)
    let row := setCol row ROW_STATUS (k.CopysetHealthStatus_Str status)
    if status ≠ k.COPYSET_OK then
      let (explain, errs) := errsCheck.foldl RunCommand.explainStep ("|", errs)
      let row := setCol row ROW_EXPLAIN explain
      (rows ++ [row], errs)
    else (rows ++ [row], errs)

/-- The comparison handed to `sort.Slice`: string order of the key column. -/
def RunCommand.less (a b : Row) : Prop := getCol a ROW_COPYSETKEY < getCol b ROW_COPYSETKEY

instance (a b : Row) : Decidable (RunCommand.less a b) := by
  unfold RunCommand.less
  infer_instance

/-- Method `CopysetCommand.RunCommand`: the command afterwards. `sort.Slice` is an insertion
sort by the comparison; `MergeCmdError` is given. -/
def CopysetCommand.RunCommand {ι : Type} (k : CopysetConsts)
    (CheckCopySetHealth : Option ι → Int × List CmdError)
    (MergeCmdError : List CmdError → CmdError) (cCmd : CopysetCommand ι) : CopysetCommand ι :=
  let (rows, errs) := cCmd.key2Copyset.foldl (RunCommand.body k CheckCopySetHealth) ([], [])
  let retErr := MergeCmdError errs
  let rows := List.insertionSort RunCommand.less rows
  { cCmd with Error := retErr, Table := cCmd.Table ++ rows }

/-! ## Go values shared by the metaserver commands -/

/-- A Go `error` value, kept as the call that built it: `fmt.Errorf(format, args...)`, or an
error handed back by a library. -/
inductive GoError where
  | Errorf (format : String) (args : List String)
  | library (text : String)
deriving DecidableEq, Repr

/-- Loop of `strings.Split` over the characters, for a separator of one character. -/
def strings.Split.go (sep : Char) : List Char → List (List Char)
  | [] => [[]]
  | ch :: rest =>
    if ch = sep then [] :: strings.Split.go sep rest
    else
      match strings.Split.go sep rest with
      | [] => [[ch]]
      | part :: parts => (ch :: part) :: parts

/-- The function `strings.Split(s, sep)` for a separator of one character: the parts of `s`
between the separators, one more than there are separators. -/
def strings.Split (s : String) (sep : Char) : List String :=
  (strings.Split.go sep s.toList).map String.mk

/-! ## `query/metaserver/metaserver.go` -/

/-- The function `strconv.ParseUint(s, 10, 32)`: the value of a non-empty string of decimal
digits that fits 32 bits, or an error. -/
def ParseUint32 (s : String) : Option Nat :=
  if s.toList = [] then none
  else if s.toList.all (fun c => decide ('0' ≤ c ∧ c ≤ '9')) then
    let n := s.toList.foldl (fun n c => 10 * n + (c.toNat - '0'.toNat)) 0
    if n < 2 ^ 32 then some n else none
  else none

/-- Request of `GetMetaServer`; every field is optional. -/
structure GetMetaServerInfoRequest where
  MetaServerID : Option Nat
  HostIp : Option String
  Port : Option Nat
deriving DecidableEq, Repr

/-- The record `basecmd.Rpc`, as filled by `basecmd.NewRpc`. -/
structure Rpc where
  Addrs : List String
  RpcTimeout : Nat
  RpcRetryTimes : Int
  RpcFuncName : String
deriving DecidableEq, Repr

/-- The constructor `basecmd.NewRpc`. -/
def NewRpc (addrs : List String) (timeout : Nat) (retryTimes : Int) (funcName : String) : Rpc :=
  { Addrs := addrs, RpcTimeout := timeout, RpcRetryTimes := retryTimes,
    RpcFuncName := funcName }

/-- The record `QueryMetaserverRpc` (without its client). -/
structure QueryMetaserverRpc where
  Info : Rpc
  Request : GetMetaServerInfoRequest
deriving DecidableEq, Repr

/-- Names of package `config` used by the query command; they are declared outside the
embedded files and are taken as given. -/
structure QueryConfig where
  VIPER_CURVEFS_METASERVERADDR : String
  VIPER_CURVEFS_METASERVERID : String
  CURVEFS_METASERVERADDR : String
  CURVEFS_METASERVERID : String
  VIPER_GLOBALE_RPCTIMEOUT : String
  VIPER_GLOBALE_RPCRETRYTIMES : String
deriving DecidableEq, Repr

/-- The settings store `viper`, read through the four functions the command calls. -/
structure Viper where
  IsSet : String → Bool
  GetStringSlice : String → List String
  GetDuration : String → Nat
  GetInt32 : String → Int

/-- The fields of the query `MetaserverCommand` that `Init` reads and writes. -/
structure QueryMetaserver.MetaserverCommand where
  Rpc : List QueryMetaserverRpc
  Rows : List Row
  Table : List Row
deriving DecidableEq, Repr

/-- Loop of `Init` over `metaserverAddrs`. -/
def QueryMetaserver.Init.addrLoop (addrs : List String) (timeout : Nat) (retrytimes : Int) :
    List String → QueryMetaserver.MetaserverCommand →
    Option GoError × QueryMetaserver.MetaserverCommand
  | [], mCmd => (none, mCmd)
  | a :: rest, mCmd =>
    let addr := strings.Split a ':'
    if addr.length ≠ 2 then
      (some (GoError.Errorf "unrecognized metaserver addr: %s" [a]), mCmd)
    else
      match ParseUint32 (addr.getD 1 "") with
      | none => (some (GoError.Errorf "unrecognized metaserver port: %s" [a]), mCmd)
      | some port =>
        let port32 := port % 2 ^ 32
        let request : GetMetaServerInfoRequest :=
          { HostIp := some (addr.getD 0 ""), Port := some port32, MetaServerID := none }
        let rpc : QueryMetaserverRpc :=
          { Request := request, Info := NewRpc addrs timeout retrytimes "GetMetaServerInfo" }
        let mCmd := { mCmd with Rpc := mCmd.Rpc ++ [rpc] }
        let row : Row := []
        let row := setCol row "id" ""
        let row := setCol row "external addr" a
        let mCmd := { mCmd with Rows := mCmd.Rows ++ [row] }
        QueryMetaserver.Init.addrLoop addrs timeout retrytimes rest mCmd

/-- Loop of `Init` over `metaserverIds`. -/
def QueryMetaserver.Init.idLoop (cfg : QueryConfig) (addrs : List String) (timeout : Nat)
    (retrytimes : Int) :
    List String → QueryMetaserver.MetaserverCommand →
    Option GoError × QueryMetaserver.MetaserverCommand
  | [], mCmd => (none, mCmd)
  | s :: rest, mCmd =>
    match ParseUint32 s with
    | none => (some (GoError.Errorf "invalid %s: %s" [cfg.CURVEFS_METASERVERID, s]), mCmd)
    | some id =>
      let id32 := id % 2 ^ 32
      let request : GetMetaServerInfoRequest :=
        { MetaServerID := some id32, HostIp := none, Port := none }
      let rpc : QueryMetaserverRpc :=
        { Request := request, Info := NewRpc addrs timeout retrytimes "GetMetaServerInfo" }
      let mCmd := { mCmd with Rpc := mCmd.Rpc ++ [rpc] }
      let row : Row := []
      let row := setCol row "id" s
      let row := setCol row "external addr" ""
      let mCmd := { mCmd with Rows := mCmd.Rows ++ [row] }
      QueryMetaserver.Init.idLoop cfg addrs timeout retrytimes rest mCmd

/-- Method `Init` of the query command: the returned error and the command afterwards.
`GetFsMdsAddrSlice` is the outcome of `config.GetFsMdsAddrSlice`, `gotableCreate` the error
of `gotable.Create` on the column names. -/
def QueryMetaserver.Init (cfg : QueryConfig) (viper : Viper)
    (GetFsMdsAddrSlice : List String × CmdError) (gotableCreate : List String → Option GoError)
    (mCmd : QueryMetaserver.MetaserverCommand) :
    Option GoError × QueryMetaserver.MetaserverCommand :=
  let (addrs, addrErr) := GetFsMdsAddrSlice
  if addrErr.TypeCode ≠ CODE_SUCCESS then (some (GoError.Errorf addrErr.Message []), mCmd)
  else
    let (metaserverAddrs, metaserverIds) : List String × List String :=
      if viper.IsSet cfg.VIPER_CURVEFS_METASERVERADDR
          && !viper.IsSet cfg.VIPER_CURVEFS_METASERVERID then
        (viper.GetStringSlice cfg.VIPER_CURVEFS_METASERVERADDR, [])
      else ([], viper.GetStringSlice cfg.VIPER_CURVEFS_METASERVERID)
    if metaserverAddrs.length = 0 ∧ metaserverIds.length = 0 then
      (some (GoError.Errorf "%s or %s is required"
        [cfg.CURVEFS_METASERVERADDR, cfg.CURVEFS_METASERVERID]), mCmd)
    else
      match gotableCreate ["id", "host name", "internal addr", "external addr", "online state"]
        with
      | some err => (some err, mCmd)
      | none =>
        let mCmd := { mCmd with Table := [] }
        let mCmd := { mCmd with Rows := [] }
        let timeout := viper.GetDuration cfg.VIPER_GLOBALE_RPCTIMEOUT
        let retrytimes := viper.GetInt32 cfg.VIPER_GLOBALE_RPCRETRYTIMES
        match QueryMetaserver.Init.addrLoop addrs timeout retrytimes metaserverAddrs mCmd with
        | (some err, mCmd) => (some err, mCmd)
        | (none, mCmd) =>
          QueryMetaserver.Init.idLoop cfg addrs timeout retrytimes metaserverIds mCmd

/-! ## `status/metaserver/metaserver.go` -/

/-- The constant `STATUS_SUBURI`. -/
def STATUS_SUBURI : String := "/vars/pid"

/-- The constant `VERSION_SUBURI`. -/
def VERSION_SUBURI : String := "/vars/curve_version"

/-- The record `basecmd.Metric`, as filled by `basecmd.NewMetric`. -/
structure Metric where
  Addrs : List String
  SubUri : String
  timeout : Nat
deriving DecidableEq, Repr

/-- The constructor `basecmd.NewMetric`. -/
def NewMetric (addrs : List String) (subUri : String) (timeout : Nat) : Metric :=
  { Addrs := addrs, SubUri := subUri, timeout := timeout }

/-- The record `basecmd.MetricResult`. -/
structure MetricResult where
  Addr : String
  Key : String
  Value : String
  Err : CmdError
deriving DecidableEq, Repr

/-- The fields of the status `MetaserverCommand` that `Init` and `RunCommand` read and
write. -/
structure StatusMetaserver.MetaserverCommand where
  metrics : List Metric
  rows : List Row
  Table : List Row
  Error : CmdError
deriving DecidableEq, Repr

/-- How a method ends: it returns an error value (`none` is `nil`), or the process stops
(`cobra.CheckErr` on an error, or a run-time panic). -/
inductive Outcome where
  | returned (err : Option GoError)
  | stopped
deriving DecidableEq, Repr

/-- Loop of the status `Init` over `externalAddrs`, at index `i`. -/
def StatusMetaserver.Init.loop (IsValidAddr : String → Bool) (timeout : Nat)
    (internalAddrs : List String) :
    List String → Nat → StatusMetaserver.MetaserverCommand →
    Outcome × StatusMetaserver.MetaserverCommand
  | [], _, mCmd => (Outcome.returned none, mCmd)
  | addr :: rest, i, mCmd =>
    if !IsValidAddr addr then
      (Outcome.returned (some (GoError.Errorf "invalid metaserver external addr: %s" [addr])),
        mCmd)
    else
      let addrs := [addr]
      let statusMetric := NewMetric addrs STATUS_SUBURI timeout
      let mCmd := { mCmd with metrics := mCmd.metrics ++ [statusMetric] }
      let versionMetric := NewMetric addrs VERSION_SUBURI timeout
      let mCmd := { mCmd with metrics := mCmd.metrics ++ [versionMetric] }
      let row : Row := []
      let row := setCol row "externalAddr" addr
      match internalAddrs[i]? with
      | none => (Outcome.stopped, mCmd)
      | some internalAddr =>
        let row := setCol row "internalAddr" internalAddr
        let row := setCol row "status" "offline"
        let row := setCol row "version" "unknown"
        let mCmd := { mCmd with rows := mCmd.rows ++ [row] }
        StatusMetaserver.Init.loop IsValidAddr timeout internalAddrs rest (i + 1) mCmd

/-- Method `Init` of the status command. `GetMetaserverAddrs` is the outcome of
`topology.GetMetaserverAddrs`, `gotableCreate` the error of `gotable.Create`, `timeout` the
value of `viper.GetDuration`. -/
def StatusMetaserver.Init (GetMetaserverAddrs : List String × List String × CmdError)
    (gotableCreate : List String → Option GoError) (IsValidAddr : String → Bool)
    (timeout : Nat) (mCmd : StatusMetaserver.MetaserverCommand) :
    Outcome × StatusMetaserver.MetaserverCommand :=
  let (externalAddrs, internalAddrs, errMetaserver) := GetMetaserverAddrs
  if errMetaserver.TypeCode ≠ CODE_SUCCESS then
    (Outcome.returned (some (GoError.Errorf errMetaserver.Message [])), mCmd)
  else
    match gotableCreate ["externalAddr", "internalAddr", "version", "status"] with
    | some _ => (Outcome.stopped, mCmd)
    | none =>
      let mCmd := { mCmd with Table := [] }
      StatusMetaserver.Init.loop IsValidAddr timeout internalAddrs externalAddrs 0 mCmd

/-- The goroutine that `RunCommand` starts for a metric: the result it sends to the
channel, or nothing when `m.Addrs[0]` is out of range. -/
def StatusMetaserver.RunCommand.worker (QueryMetric : Metric → String × CmdError)
    (GetMetricValue : String → String × CmdError) (m : Metric) : Option MetricResult :=
  let (result, err) := QueryMetric m
  let key := if m.SubUri = STATUS_SUBURI then "status" else "version"
  let (value, err) : String × CmdError :=
    if err.TypeCode = CODE_SUCCESS then GetMetricValue result else ("", err)
  match m.Addrs[0]? with
  | none => none
  | some addr => some { Addr := addr, Key := key, Value := value, Err := err }

/-- Body of the loop of `RunCommand` over the rows for one received result, on the rows
already visited and `errs`. -/
def StatusMetaserver.RunCommand.rowStep (offline : String → CmdError) (res : MetricResult)
    (acc : List Row × List CmdError) (row : Row) : List Row × List CmdError :=
  if res.Err.TypeCode = CODE_SUCCESS ∧ getCol row "externalAddr" = res.Addr then
    if res.Key = "status" then (acc.1 ++ [setCol row res.Key "online"], acc.2)
    else (acc.1 ++ [setCol row res.Key res.Value], acc.2)
  else if res.Err.TypeCode ≠ CODE_SUCCESS then
    (acc.1 ++ [row], acc.2 ++ [offline res.Addr])
  else (acc.1 ++ [row], acc.2)

/-- The receive loop of `RunCommand` over the results that arrive on the channel, in order
of arrival, with the running `count`, `errs` and rows. When nothing is left to arrive the
receive blocks for ever: `none`. `offline addr` is `ErrMetaserverOffline()` formatted with
the address. -/
def StatusMetaserver.RunCommand.recv (offline : String → CmdError) (size : Nat) :
    List MetricResult → Nat → List CmdError → List Row → Option (List CmdError × List Row)
  | [], _, _, _ => none
  | res :: rest, count, errs, rows =>
    let (rows, errs) := rows.foldl (StatusMetaserver.RunCommand.rowStep offline res) ([], errs)
    let count := count + 1
    if count ≥ size then some (errs, rows)
    else StatusMetaserver.RunCommand.recv offline size rest count errs rows

/-- Method `RunCommand` of the status command, given the results in their order of arrival
on the channel: the command afterwards, or `none` when the receive loop blocks for ever. -/
def StatusMetaserver.RunCommand (offline : String → CmdError)
    (MostImportantCmdError : List CmdError → CmdError) (arrivals : List MetricResult)
    (mCmd : StatusMetaserver.MetaserverCommand) : Option StatusMetaserver.MetaserverCommand :=
  let size := mCmd.metrics.length
  match StatusMetaserver.RunCommand.recv offline size arrivals 0 [] mCmd.rows with
  | none => none
  | some (errs, rows) =>
    some { mCmd with
      rows := rows
      Error := MostImportantCmdError errs
      Table := mCmd.Table ++ rows }

/-! ## Vocabulary of the statements about `scanServers` -/

/-- Identity key of a desired server: host name, zone name, pool name. -/
def Server.key (s : Server) : String × String × String := (s.Name, s.ZoneName, s.PoolName)

/-- Identity key of an actual server record. -/
def ServerInfo.key (a : ServerInfo) : String × String × String :=
  (a.HostName, a.ZoneName, a.PoolName)

/-- Identity key carried by a registration request. -/
def ServerRegistRequest.key (r : ServerRegistRequest) : String × String × String :=
  (r.HostName, r.ZoneName, r.PoolName)

/-- A registration request with the seven fields of a desired server copied unchanged. -/
def Server.copy (s : Server) : ServerRegistRequest :=
  { HostName := s.Name
    InternalIp := s.InternalIp
    InternalPort := s.InternalPort
    ExternalIp := s.ExternalIp
    ExternalPort := s.ExternalPort
    ZoneName := s.ZoneName
    PoolName := s.PoolName }

/-- The pointers `&server.Name`, ... that every request of the create loop holds. -/
def serverRef : ServerRegistRequest.Ref :=
  { HostName := Server.Name
    InternalIp := Server.InternalIp
    InternalPort := Server.InternalPort
    ExternalIp := Server.ExternalIp
    ExternalPort := Server.ExternalPort
    ZoneName := Server.ZoneName
    PoolName := Server.PoolName }

/-- The list of `n` requests that all read as the last desired server (no request for an
empty desired list). -/
def lastCopies (D : List Server) (n : Nat) : List ServerRegistRequest :=
  match D.getLast? with
  | none => []
  | some last => List.replicate n last.copy

/-- Every zone listing of the command succeeds with status `TOPO_OK`. -/
def ListingOk (GetRpcResponse : ListZoneServerRequest → ListZoneServerResponse × CmdError)
    (tCmd : TopologyCommand) : Prop :=
  ∀ z ∈ tCmd.clusterZonesInfo,
    (GetRpcResponse ⟨z.ZoneID⟩).2.TypeCode = CODE_SUCCESS ∧
    (GetRpcResponse ⟨z.ZoneID⟩).1.StatusCode = TopoStatusCode_TOPO_OK

/-- The actual server list: what the command already holds, followed by the
concatenation of the per-zone listings in zone order. -/
def actualServers (GetRpcResponse : ListZoneServerRequest → ListZoneServerResponse × CmdError)
    (tCmd : TopologyCommand) : List ServerInfo :=
  tCmd.clusterServersInfo ++
    tCmd.clusterZonesInfo.flatMap (fun z => (GetRpcResponse ⟨z.ZoneID⟩).1.ServerInfo)

/-- The DEL row written for an actual record. -/
def delRow (c : RowConsts) (a : ServerInfo) : Row :=
  setCol (setCol (setCol (setCol [] c.ROW_NAME a.HostName) c.ROW_TYPE TYPE_SERVER)
    c.ROW_OPERATION c.ROW_VALUE_DEL) c.ROW_PARENT a.ZoneName

/-- The ADD row written for a desired server. -/
def addRow (c : RowConsts) (s : Server) : Row :=
  setCol (setCol (setCol (setCol [] c.ROW_NAME s.Name) c.ROW_TYPE TYPE_SERVER)
    c.ROW_OPERATION c.ROW_VALUE_ADD) c.ROW_PARENT s.ZoneName

/-- An entry of the collection obtained by applying scheduled operations: an actual
record that was kept, or a server that was created. -/
abbrev Entry := ServerInfo ⊕ ServerRegistRequest

/-- Identity key of an entry. -/
def Entry.key : Entry → String × String × String
  | Sum.inl a => a.key
  | Sum.inr r => r.key

/-- Applying scheduled operations to the actual list: every entry scheduled for creation is
added, then every actual record whose id is scheduled for deletion is removed. -/
def applyOps (A : List ServerInfo) (toCreate : List ServerRegistRequest)
    (toDelete : List DeleteServerRequest) : List Entry :=
  (A.map Sum.inl ++ toCreate.map Sum.inr).filter fun
    | Sum.inl a => decide ((⟨a.ServerID⟩ : DeleteServerRequest) ∉ toDelete)
    | Sum.inr _ => true

/-- The outcome of a delete request is a response with status `TOPO_OK`. -/
def DeleteOk (rpc : DeleteServerRequest → DeleteServerResponse × CmdError)
    (r : DeleteServerRequest) : Prop :=
  (rpc r).2.TypeCode = CODE_SUCCESS ∧ (rpc r).1.StatusCode = TopoStatusCode_TOPO_OK

instance (rpc : DeleteServerRequest → DeleteServerResponse × CmdError)
    (r : DeleteServerRequest) : Decidable (DeleteOk rpc r) := by
  unfold DeleteOk
  infer_instance

/-- The error `removeServers` returns for a request whose outcome is not `TOPO_OK`: the
transport error itself, or the topology error built from the status code. -/
def deleteFailure (E : TopoStatusCode → String → CmdError)
    (rpc : DeleteServerRequest → DeleteServerResponse × CmdError)
    (r : DeleteServerRequest) : CmdError :=
  if (rpc r).2.TypeCode ≠ CODE_SUCCESS then (rpc r).2 else E (rpc r).1.StatusCode TYPE_SERVER

/-- The outcome of a registration request is a response with status `TOPO_OK`. -/
def CreateOk (rpc : ServerRegistRequest → ServerRegistResponse × CmdError)
    (r : ServerRegistRequest) : Prop :=
  (rpc r).2.TypeCode = CODE_SUCCESS ∧ (rpc r).1.StatusCode = TopoStatusCode_TOPO_OK

instance (rpc : ServerRegistRequest → ServerRegistResponse × CmdError)
    (r : ServerRegistRequest) : Decidable (CreateOk rpc r) := by
  unfold CreateOk
  infer_instance

/-- The error `createServers` returns for a request whose outcome is not `TOPO_OK`. -/
def createFailure (E : TopoStatusCode → String → CmdError)
    (rpc : ServerRegistRequest → ServerRegistResponse × CmdError)
    (r : ServerRegistRequest) : CmdError :=
  if (rpc r).2.TypeCode ≠ CODE_SUCCESS then (rpc r).2 else E (rpc r).1.StatusCode TYPE_SERVER

/-- The explain text of a list of messages: a bar, then every message in order, each
followed by a bar. -/
def explainOf (msgs : List CmdError) : String :=
  "|" ++ String.join (msgs.map (fun e => e.Message ++ "|"))

/-- The messages that a map entry owes to the merged error list: all messages of a present
copyset whose status is not OK, none otherwise. -/
def messagesOf {ι : Type} (k : CopysetConsts) (check : Option ι → Int × List CmdError)
    (kv : Nat × Option ι) : List CmdError :=
  match kv.2 with
  | none => []
  | some v => if (check (some v)).1 ≠ k.COPYSET_OK then (check (some v)).2 else []

/-- The row of a map entry. -/
def rowOf {ι : Type} (k : CopysetConsts) (check : Option ι → Int × List CmdError)
    (kv : Nat × Option ι) : Row :=
  match kv.2 with
  | none =>
    [(ROW_COPYSETKEY, toString kv.1),
      (ROW_STATUS, k.CopysetHealthStatus_Str k.COPYSET_NOTEXIST)]
  | some v =>
    if (check (some v)).1 ≠ k.COPYSET_OK then
      [(ROW_COPYSETKEY, toString kv.1),
        (ROW_STATUS, k.CopysetHealthStatus_Str (check (some v)).1),
        (ROW_EXPLAIN, explainOf (check (some v)).2)]
    else
      [(ROW_COPYSETKEY, toString kv.1),
        (ROW_STATUS, k.CopysetHealthStatus_Str (check (some v)).1)]

/-- The row of an absent copyset: its key and the NOT_EXIST name, nothing else. -/
def notExistRow (k : CopysetConsts) (key : Nat) : Row :=
  [(ROW_COPYSETKEY, toString key), (ROW_STATUS, k.CopysetHealthStatus_Str k.COPYSET_NOTEXIST)]

/-- The row of a present copyset that is not OK: key, status name and explain text. -/
def explainedRow (k : CopysetConsts) (key : Nat) (status : Int) (msgs : List CmdError) : Row :=
  [(ROW_COPYSETKEY, toString key), (ROW_STATUS, k.CopysetHealthStatus_Str status),
    (ROW_EXPLAIN, explainOf msgs)]

/-! ## Vocabulary of the statements about the query command -/

/-- The text is accepted as a metaserver id. -/
def validId (s : String) : Bool := (ParseUint32 s).isSome

/-- The text is accepted as a metaserver address: two parts around one colon, the second
a port. -/
def validAddr (s : String) : Bool :=
  (strings.Split s ':').length = 2 && (ParseUint32 ((strings.Split s ':').getD 1 "")).isSome

/-- The request by metaserver id built from an id text. -/
def rpcById (addrs : List String) (timeout : Nat) (retrytimes : Int) (s : String) :
    QueryMetaserverRpc :=
  { Request := { MetaServerID := ParseUint32 s, HostIp := none, Port := none }
    Info := NewRpc addrs timeout retrytimes "GetMetaServerInfo" }

/-- The row built from an id text. -/
def rowById (s : String) : Row := [("id", s), ("external addr", "")]

/-- The request by address built from an address text. -/
def rpcByAddr (addrs : List String) (timeout : Nat) (retrytimes : Int) (s : String) :
    QueryMetaserverRpc :=
  { Request :=
      { MetaServerID := none, HostIp := some ((strings.Split s ':').getD 0 ""),
        Port := ParseUint32 ((strings.Split s ':').getD 1 "") }
    Info := NewRpc addrs timeout retrytimes "GetMetaServerInfo" }

/-- The row built from an address text. -/
def rowByAddr (s : String) : Row := [("id", ""), ("external addr", s)]

/-- The error of the id loop: about the first id text that is not accepted, if any. -/
def idError (cfg : QueryConfig) (ids : List String) : Option GoError :=
  (ids.find? (fun s => !validId s)).map
    (fun s => GoError.Errorf "invalid %s: %s" [cfg.CURVEFS_METASERVERID, s])

/-- The error of the address loop: about the first address text that is not accepted. -/
def addrError (l : List String) : Option GoError :=
  (l.find? (fun s => !validAddr s)).map
    (fun s =>
      if (strings.Split s ':').length ≠ 2 then
        GoError.Errorf "unrecognized metaserver addr: %s" [s]
      else GoError.Errorf "unrecognized metaserver port: %s" [s])

/-- The error raised when neither list selects a target. -/
def requiredError (cfg : QueryConfig) : GoError :=
  GoError.Errorf "%s or %s is required" [cfg.CURVEFS_METASERVERADDR, cfg.CURVEFS_METASERVERID]

/-! ## Vocabulary of the statements about the status command -/

/-- What one received result does to one row. -/
def updateRow (res : MetricResult) (row : Row) : Row :=
  if res.Err.TypeCode = CODE_SUCCESS ∧ getCol row "externalAddr" = res.Addr then
    if res.Key = "status" then setCol row res.Key "online" else setCol row res.Key res.Value
  else row

/-- The offline errors that one received result adds for a table of `r` rows: one per row
when the fetch failed, none otherwise. -/
def offlineErrors (offline : String → CmdError) (r : Nat) (res : MetricResult) :
    List CmdError :=
  if res.Err.TypeCode ≠ CODE_SUCCESS then List.replicate r (offline res.Addr) else []

/-- The fetch failed. -/
def failed (res : MetricResult) : Bool := decide (res.Err.TypeCode ≠ CODE_SUCCESS)

/-- A row of the status table with its four columns in the order in which `Init` writes
them. -/
def statusRow (externalAddr internalAddr status version : String) : Row :=
  [("externalAddr", externalAddr), ("internalAddr", internalAddr), ("status", status),
    ("version", version)]

/-- The result that the goroutine of the metric `NewMetric [addr] subUri timeout` sends. -/
def fetch (QueryMetric : Metric → String × CmdError)
    (GetMetricValue : String → String × CmdError) (timeout : Nat) (addr subUri : String) :
    MetricResult :=
  { Addr := addr
    Key := if subUri = STATUS_SUBURI then "status" else "version"
    Value :=
      if (QueryMetric (NewMetric [addr] subUri timeout)).2.TypeCode = CODE_SUCCESS then
        (GetMetricValue (QueryMetric (NewMetric [addr] subUri timeout)).1).1
      else ""
    Err :=
      if (QueryMetric (NewMetric [addr] subUri timeout)).2.TypeCode = CODE_SUCCESS then
        (GetMetricValue (QueryMetric (NewMetric [addr] subUri timeout)).1).2
      else (QueryMetric (NewMetric [addr] subUri timeout)).2 }

/-- The row reported for a metaserver: online exactly when its status fetch succeeded, with
the fetched version exactly when its version fetch succeeded. -/
def finalRow (QueryMetric : Metric → String × CmdError)
    (GetMetricValue : String → String × CmdError) (timeout : Nat)
    (externalAddr internalAddr : String) : Row :=
  statusRow externalAddr internalAddr
    (if (fetch QueryMetric GetMetricValue timeout externalAddr STATUS_SUBURI).Err.TypeCode
        = CODE_SUCCESS then "online" else "offline")
    (if (fetch QueryMetric GetMetricValue timeout externalAddr VERSION_SUBURI).Err.TypeCode
        = CODE_SUCCESS then
      (fetch QueryMetric GetMetricValue timeout externalAddr VERSION_SUBURI).Value
    else "unknown")

/-! ## Sample data -/

/-- Sample column names and labels. -/
def sampleConsts : RowConsts :=
  { ROW_NAME := "name", ROW_TYPE := "type", ROW_OPERATION := "operation",
    ROW_PARENT := "parent", ROW_VALUE_ADD := "add", ROW_VALUE_DEL := "del" }

/-- Sample error constructor for a rejected listing. -/
def sampleErrListPool (code : TopoStatusCode) : CmdError := ⟨1000 + code, "list pool fail"⟩

/-- Desired server `s1` of zone `z1` in pool `p1`. -/
def s1 : Server :=
  { Name := "s1", InternalIp := "10.0.0.1", InternalPort := 6700,
    ExternalIp := "192.168.0.1", ExternalPort := 6700, ZoneName := "z1", PoolName := "p1" }

/-- A remote that lists no server in any zone. -/
def emptyListing (_ : ListZoneServerRequest) : ListZoneServerResponse × CmdError :=
  (⟨TopoStatusCode_TOPO_OK, []⟩, ErrSuccess)

/-- Command with one zone, desired list `[s1]` and nothing scheduled. -/
def sampleCmd : TopologyCommand :=
  { clusterZonesInfo := [⟨1, "z1", 1⟩], clusterServersInfo := [], topology := ⟨[s1]⟩,
    deleteServer := [], createServer := [], Table := [] }

/-- Desired server `s2` of zone `z1` in pool `p1`. -/
def s2 : Server :=
  { Name := "s2", InternalIp := "10.0.0.2", InternalPort := 6700,
    ExternalIp := "192.168.0.2", ExternalPort := 6700, ZoneName := "z1", PoolName := "p1" }

/-- Actual record with the identity of `s1`, registered under other addresses and ports. -/
def a1 : ServerInfo :=
  { ServerID := 11, HostName := "s1", InternalIp := "172.16.0.1", InternalPort := 7000,
    ExternalIp := "172.16.0.1", ExternalPort := 7001, ZoneID := 1, ZoneName := "z1",
    PoolID := 1, PoolName := "p1" }

/-- Actual record with the identity of `s2`. -/
def a2 : ServerInfo :=
  { ServerID := 12, HostName := "s2", InternalIp := "10.0.0.2", InternalPort := 6700,
    ExternalIp := "192.168.0.2", ExternalPort := 6700, ZoneID := 1, ZoneName := "z1",
    PoolID := 1, PoolName := "p1" }

/-- Actual record that no desired server matches. -/
def a3 : ServerInfo :=
  { ServerID := 13, HostName := "s3", InternalIp := "10.0.0.3", InternalPort := 6700,
    ExternalIp := "192.168.0.3", ExternalPort := 6700, ZoneID := 1, ZoneName := "z1",
    PoolID := 1, PoolName := "p1" }

/-- A remote whose zone holds `a1` and `a3`. -/
def driftListing (_ : ListZoneServerRequest) : ListZoneServerResponse × CmdError :=
  (⟨TopoStatusCode_TOPO_OK, [a1, a3]⟩, ErrSuccess)

/-- A remote whose zone holds `a2` and `a1`, in this order. -/
def sameListing (_ : ListZoneServerRequest) : ListZoneServerResponse × CmdError :=
  (⟨TopoStatusCode_TOPO_OK, [a2, a1]⟩, ErrSuccess)

/-- Command with one zone, desired list `[s1, s2]` and nothing scheduled. -/
def pairCmd : TopologyCommand :=
  { clusterZonesInfo := [⟨1, "z1", 1⟩], clusterServersInfo := [], topology := ⟨[s1, s2]⟩,
    deleteServer := [], createServer := [], Table := [] }

/-- Server `s1` declared with other addresses and ports. -/
def s1b : Server :=
  { Name := "s1", InternalIp := "10.9.9.1", InternalPort := 8800,
    ExternalIp := "192.168.9.1", ExternalPort := 8801, ZoneName := "z1", PoolName := "p1" }

/-- Command with one zone and the desired list `[s2, s1]`. -/
def swapCmd : TopologyCommand := { pairCmd with topology := ⟨[s2, s1]⟩ }

/-- Command whose desired list declares the identity of `s1` twice. -/
def dupCmd : TopologyCommand := { sampleCmd with topology := ⟨[s1, s1b]⟩ }

/-- Sample topology error constructor: never a success code. -/
def sampleErrTopology (code : TopoStatusCode) (topoType : String) : CmdError :=
  ⟨1 + code.natAbs, topoType ++ " operation rejected"⟩

/-- A remote that rejects the deletion of server 13 with status 4 and accepts the others. -/
def rejectThirteen (r : DeleteServerRequest) : DeleteServerResponse × CmdError :=
  if r.ServerID = 13 then (⟨4⟩, ErrSuccess) else (⟨TopoStatusCode_TOPO_OK⟩, ErrSuccess)

/-- A remote that accepts every registration. -/
def acceptAll (_ : ServerRegistRequest) : ServerRegistResponse × CmdError :=
  (⟨TopoStatusCode_TOPO_OK⟩, ErrSuccess)

/-- Command with the deletions of servers 11, 13 and 12 scheduled, in this order. -/
def applyCmd : TopologyCommand :=
  { clusterZonesInfo := [], clusterServersInfo := [], topology := ⟨[]⟩,
    deleteServer := [⟨11⟩, ⟨13⟩, ⟨12⟩], createServer := [s1.copy], Table := [] }

/-- Sample health statuses and names. -/
def sampleCopysetConsts : CopysetConsts :=
  { COPYSET_OK := 1, COPYSET_NOTEXIST := 4,
    CopysetHealthStatus_Str := fun s =>
      if s = 1 then "ok" else if s = 2 then "warn" else if s = 3 then "error"
      else if s = 4 then "not exist" else "" }

/-- Sample health check on copysets described by a list of messages: OK without messages,
status 3 with them. -/
def sampleCheck (v : Option (List String)) : Int × List CmdError :=
  match v with
  | none => (1, [])
  | some [] => (1, [])
  | some msgs => (3, msgs.map (fun m => (⟨7, m⟩ : CmdError)))

/-- Sample merge: the first error, or success. -/
def sampleMerge (errs : List CmdError) : CmdError := errs.headD ErrSuccess

/-- Copyset command whose map holds the absent keys 9 and 10, visited in this order. -/
def nineTenCmd : CopysetCommand (List String) :=
  { key2Copyset := [(9, none), (10, none)], Table := [], Error := ErrSuccess }

/-- The same map visited in the other order. -/
def tenNineCmd : CopysetCommand (List String) :=
  { key2Copyset := [(10, none), (9, none)], Table := [], Error := ErrSuccess }

/-- Copyset command over three present copysets: 1 with two messages, 2 healthy, 3 with one
message that copyset 1 also has. -/
def threeCmd : CopysetCommand (List String) :=
  { key2Copyset := [(1, some ["no leader", "peer offline"]), (2, some []),
      (3, some ["no leader"])],
    Table := [], Error := ErrSuccess }

/-- A health check that differs from `sampleCheck` only on the `nil` pointer. -/
def sampleCheckNil (v : Option (List String)) : Int × List CmdError :=
  match v with
  | none => (3, [⟨7, "nil copyset"⟩])
  | some msgs => sampleCheck (some msgs)

/-- A remote that rejects the deletion of server 12 with status 4 and accepts the others. -/
def rejectTwelve (r : DeleteServerRequest) : DeleteServerResponse × CmdError :=
  if r.ServerID = 12 then (⟨4⟩, ErrSuccess) else (⟨TopoStatusCode_TOPO_OK⟩, ErrSuccess)

/-- Sample names of package `config`. -/
def sampleQueryConfig : QueryConfig :=
  { VIPER_CURVEFS_METASERVERADDR := "curvefs.metaserverAddr"
    VIPER_CURVEFS_METASERVERID := "curvefs.metaserverId"
    CURVEFS_METASERVERADDR := "metaserveraddr"
    CURVEFS_METASERVERID := "metaserverid"
    VIPER_GLOBALE_RPCTIMEOUT := "global.rpcTimeout"
    VIPER_GLOBALE_RPCRETRYTIMES := "global.rpcRetryTimes" }

/-- Sample settings: both the address list and the id list are set. -/
def bothSet : Viper :=
  { IsSet := fun _ => true
    GetStringSlice := fun key =>
      if key = "curvefs.metaserverId" then ["1", "2"]
      else if key = "curvefs.metaserverAddr" then ["10.0.0.1:6700"] else []
    GetDuration := fun _ => 5000
    GetInt32 := fun _ => 3 }

/-- Sample settings: only the address list is set. -/
def addrOnly : Viper :=
  { IsSet := fun key => key = "curvefs.metaserverAddr"
    GetStringSlice := fun key =>
      if key = "curvefs.metaserverAddr" then ["10.0.0.1:6700", "10.0.0.2:6701"] else []
    GetDuration := fun _ => 5000
    GetInt32 := fun _ => 3 }

/-- Sample settings: neither list is set. -/
def noneSet : Viper :=
  { IsSet := fun _ => false
    GetStringSlice := fun _ => []
    GetDuration := fun _ => 5000
    GetInt32 := fun _ => 3 }

/-- Sample outcome of a failed MDS address lookup. -/
def failedMds : List String × CmdError := ([], ⟨3, "no mds address"⟩)

/-- Sample outcome of the MDS address lookup. -/
def sampleMds : List String × CmdError := (["10.0.0.9:6700"], ErrSuccess)

/-- Sample table creation that succeeds. -/
def sampleCreate (_ : List String) : Option GoError := none

/-- A query command on which nothing is built yet. -/
def emptyQuery : QueryMetaserver.MetaserverCommand := { Rpc := [], Rows := [], Table := [] }

/-- A status command on which nothing is built yet. -/
def emptyStatus : StatusMetaserver.MetaserverCommand :=
  { metrics := [], rows := [], Table := [], Error := ErrSuccess }

/-- Sample address lookup: two metaservers. -/
def twoServers : List String × List String × CmdError :=
  (["10.0.0.1:6701", "10.0.0.2:6701"], ["10.0.0.1:6700", "10.0.0.2:6700"], ErrSuccess)

/-- Sample address lookup: no metaserver. -/
def noServers : List String × List String × CmdError := ([], [], ErrSuccess)

/-- Sample address check that accepts everything. -/
def anyAddr (_ : String) : Bool := true

/-- The status command as `Init` leaves it for the two sample metaservers. -/
def twoStatus : StatusMetaserver.MetaserverCommand :=
  (StatusMetaserver.Init twoServers sampleCreate anyAddr 500 emptyStatus).2

/-- Sample fetch: the second metaserver does not answer. -/
def sampleQuery (m : Metric) : String × CmdError :=
  if m.Addrs = ["10.0.0.2:6701"] then ("", ⟨5, "timeout"⟩)
  else if m.SubUri = STATUS_SUBURI then ("42", ErrSuccess) else ("v2.3", ErrSuccess)

/-- Sample extraction of the value of a fetched metric. -/
def sampleValue (result : String) : String × CmdError := (result, ErrSuccess)

/-- Sample offline error for an address. -/
def sampleOffline (addr : String) : CmdError := ⟨9, "metaserver " ++ addr ++ " is offline"⟩

/-- The four sample results in one order of arrival: the version of the first metaserver,
the two failed fetches of the second, the status of the first. -/
def sampleArrivals : List MetricResult :=
  [ { Addr := "10.0.0.1:6701", Key := "version", Value := "v2.3", Err := ErrSuccess },
    { Addr := "10.0.0.2:6701", Key := "status", Value := "", Err := ⟨5, "timeout"⟩ },
    { Addr := "10.0.0.2:6701", Key := "version", Value := "", Err := ⟨5, "timeout"⟩ },
    { Addr := "10.0.0.1:6701", Key := "status", Value := "42", Err := ErrSuccess } ]

/-- The four sample results in another order of arrival. -/
def sampleArrivalsB : List MetricResult :=
  [ { Addr := "10.0.0.2:6701", Key := "version", Value := "", Err := ⟨5, "timeout"⟩ },
    { Addr := "10.0.0.1:6701", Key := "status", Value := "42", Err := ErrSuccess },
    { Addr := "10.0.0.1:6701", Key := "version", Value := "v2.3", Err := ErrSuccess },
    { Addr := "10.0.0.2:6701", Key := "status", Value := "", Err := ⟨5, "timeout"⟩ } ]

/-! ## Theorems: `scanServers` -/

theorem IndexFunc.go_eq_neg_one {α : Type} (f : α → Bool) (s : List α) (i : Nat) :
    IndexFunc.go f s i = -1 ↔ ∀ x ∈ s, f x = false := by
  induction s generalizing i with
  | nil => simp [IndexFunc.go]
  | cons x xs ih =>
    unfold IndexFunc.go
    by_cases hx : f x = true
    · simp only [hx, if_true]
      constructor
      · intro h; omega
      · intro h; have := h x (List.mem_cons_self _ _); simp [hx] at this
    · simp only [hx]
      rw [if_neg (by simp), ih]
      simp at hx
      simp [hx]

theorem IndexFunc_eq_neg_one {α : Type} (f : α → Bool) (s : List α) :
    IndexFunc s f = -1 ↔ ∀ x ∈ s, f x = false :=
  IndexFunc.go_eq_neg_one f s 0

theorem compare_eq_true (s : Server) (a : ServerInfo) :
    scanServers.compare s a = true ↔ s.key = a.key := by
  simp [scanServers.compare, Server.key, ServerInfo.key, and_assoc]

theorem index_servers_eq (D : List Server) (a : ServerInfo) :
    IndexFunc D (fun server => scanServers.compare server a) = -1 ↔ a.key ∉ D.map Server.key := by
  rw [IndexFunc_eq_neg_one]
  simp only [List.mem_map, not_exists, not_and]
  constructor
  · intro h d hd hk
    have := h d hd
    rw [(compare_eq_true d a).mpr hk] at this
    exact Bool.noConfusion this
  · intro h d hd
    cases hc : scanServers.compare d a with
    | false => rfl
    | true => exact absurd ((compare_eq_true d a).mp hc) (h d hd)

theorem index_infos_eq (A : List ServerInfo) (s : Server) :
    IndexFunc A (fun serverInfo => scanServers.compare s serverInfo) = -1 ↔
      s.key ∉ A.map ServerInfo.key := by
  rw [IndexFunc_eq_neg_one]
  simp only [List.mem_map, not_exists, not_and]
  constructor
  · intro h a ha hk
    have := h a ha
    rw [(compare_eq_true s a).mpr hk.symm] at this
    exact Bool.noConfusion this
  · intro h a ha
    cases hc : scanServers.compare s a with
    | false => rfl
    | true => exact absurd ((compare_eq_true s a).mp hc).symm (h a ha)

theorem scan_ok (E : TopoStatusCode → CmdError)
    (rpc : ListZoneServerRequest → ListZoneServerResponse × CmdError)
    (zones : List ZoneInfo) (tCmd : TopologyCommand)
    (h : ∀ z ∈ zones, (rpc ⟨z.ZoneID⟩).2.TypeCode = CODE_SUCCESS ∧
      (rpc ⟨z.ZoneID⟩).1.StatusCode = TopoStatusCode_TOPO_OK) :
    scanServers.scan E rpc zones tCmd =
      (none, { tCmd with clusterServersInfo :=
        (tCmd.clusterServersInfo ++ zones.flatMap (fun z => (rpc ⟨z.ZoneID⟩).1.ServerInfo)) }) := by
  induction zones generalizing tCmd with
  | nil => simp [scanServers.scan]
  | cons z zs ih =>
    have hz := h z (List.mem_cons_self _ _)
    have hzs : ∀ y ∈ zs, (rpc ⟨y.ZoneID⟩).2.TypeCode = CODE_SUCCESS ∧
        (rpc ⟨y.ZoneID⟩).1.StatusCode = TopoStatusCode_TOPO_OK :=
      fun y hy => h y (List.mem_cons_of_mem _ hy)
    have hl : listZoneServer rpc z.ZoneID = (some (rpc ⟨z.ZoneID⟩).1, ErrSuccess) := by
      simp [listZoneServer, hz.1]
    simp only [scanServers.scan, hl]
    rw [if_neg (by simp [ErrSuccess, CmdError.TypeCode]),
      if_neg (by simp [ListZoneServerResponse.GetStatusCode, hz.2])]
    rw [ih _ hzs]
    simp [ListZoneServerResponse.GetServerInfo, List.flatMap_cons, List.append_assoc]

theorem foldl_updateDelete (c : RowConsts) (A : List ServerInfo) (tCmd : TopologyCommand) :
    A.foldl (scanServers.updateDelete c) tCmd =
      { tCmd with
        deleteServer := tCmd.deleteServer ++
          (A.filter (fun a => decide (a.key ∉ tCmd.topology.Servers.map Server.key))).map
            (fun a => (⟨a.ServerID⟩ : DeleteServerRequest))
        Table := tCmd.Table ++
          (A.filter (fun a => decide (a.key ∉ tCmd.topology.Servers.map Server.key))).map
            (delRow c) } := by
  induction A generalizing tCmd with
  | nil => simp
  | cons a as ih =>
    rw [List.foldl_cons, ih]
    by_cases hk : a.key ∈ tCmd.topology.Servers.map Server.key
    · have hi : ¬ IndexFunc tCmd.topology.Servers
          (fun server => scanServers.compare server a) = -1 := by
        rw [index_servers_eq]; exact not_not.mpr hk
      have hstep : scanServers.updateDelete c tCmd a = tCmd := by
        simp [scanServers.updateDelete, hi]
      rw [hstep, List.filter_cons_of_neg (by simpa using hk)]
    · have hi : IndexFunc tCmd.topology.Servers
          (fun server => scanServers.compare server a) = -1 := by
        rw [index_servers_eq]; exact hk
      have hstep : scanServers.updateDelete c tCmd a =
          { tCmd with deleteServer := tCmd.deleteServer ++ [⟨a.ServerID⟩],
                      Table := tCmd.Table ++ [delRow c a] } := by
        simp [scanServers.updateDelete, hi, delRow]
      rw [hstep, List.filter_cons_of_pos (by simpa using hk)]
      simp

theorem foldl_updateCreate (c : RowConsts) (D : List Server) (st : scanServers.CreateLoop) :
    D.foldl (scanServers.updateCreate c) st =
      { tCmd := { st.tCmd with
          Table := st.tCmd.Table ++
            (D.filter
              (fun s => decide (s.key ∉ st.tCmd.clusterServersInfo.map ServerInfo.key))).map
              (addRow c) }
        server := D.getLast?.or st.server
        pending := st.pending ++
          List.replicate
            (D.filter
              (fun s => decide (s.key ∉ st.tCmd.clusterServersInfo.map ServerInfo.key))).length
            serverRef } := by
  induction D generalizing st with
  | nil => simp
  | cons d ds ih =>
    have hlast : (d :: ds).getLast?.or st.server = ds.getLast?.or (some d) := by
      rw [List.getLast?_cons]
      cases ds.getLast? <;> rfl
    rw [List.foldl_cons, ih, hlast]
    by_cases hk : d.key ∈ st.tCmd.clusterServersInfo.map ServerInfo.key
    · have hi : ¬ IndexFunc st.tCmd.clusterServersInfo
          (fun serverInfo => scanServers.compare d serverInfo) = -1 := by
        rw [index_infos_eq]; exact not_not.mpr hk
      have hstep : scanServers.updateCreate c st d = { st with server := some d } := by
        simp [scanServers.updateCreate, hi]
      rw [hstep, List.filter_cons_of_neg (by simpa using hk)]
    · have hi : IndexFunc st.tCmd.clusterServersInfo
          (fun serverInfo => scanServers.compare d serverInfo) = -1 := by
        rw [index_infos_eq]; exact hk
      have hstep : scanServers.updateCreate c st d =
          { tCmd := { st.tCmd with Table := st.tCmd.Table ++ [addRow c d] }
            server := some d
            pending := st.pending ++ [serverRef] } := by
        simp [scanServers.updateCreate, hi, addRow, serverRef]
      rw [hstep, List.filter_cons_of_pos (by simpa using hk)]
      simp [List.replicate_succ]

theorem read_serverRef (d : Server) : serverRef.read d = d.copy := rfl

/-- The whole of `scanServers` when every listing succeeds: the lists it appends. Every
request appended to `createServer` reads as the last desired server. -/
theorem scanServers_eq (c : RowConsts) (E : TopoStatusCode → CmdError)
    (rpc : ListZoneServerRequest → ListZoneServerResponse × CmdError)
    (tCmd : TopologyCommand) (h : ListingOk rpc tCmd) :
    scanServers c E rpc tCmd =
      (ErrSuccess,
        { tCmd with
          clusterServersInfo := (actualServers rpc tCmd)
          deleteServer := tCmd.deleteServer ++
            ((actualServers rpc tCmd).filter
              (fun a => decide (a.key ∉ tCmd.topology.Servers.map Server.key))).map
              (fun a => (⟨a.ServerID⟩ : DeleteServerRequest))
          createServer := tCmd.createServer ++
            lastCopies tCmd.topology.Servers
              (tCmd.topology.Servers.filter
                (fun s => decide (s.key ∉ (actualServers rpc tCmd).map ServerInfo.key))).length
          Table := tCmd.Table ++
            ((actualServers rpc tCmd).filter
              (fun a => decide (a.key ∉ tCmd.topology.Servers.map Server.key))).map (delRow c) ++
            (tCmd.topology.Servers.filter
              (fun s => decide (s.key ∉ (actualServers rpc tCmd).map ServerInfo.key))).map
              (addRow c) }) := by
  unfold scanServers
  rw [scan_ok E rpc _ tCmd h]
  simp only [foldl_updateDelete, foldl_updateCreate, actualServers]
  unfold scanServers.CreateLoop.finish lastCopies
  cases hlast : tCmd.topology.Servers.getLast? with
  | none =>
    have hnil : tCmd.topology.Servers = [] := List.getLast?_eq_none_iff.mp hlast
    simp [hnil, Option.or]
  | some last =>
    simp [Option.or, List.map_replicate, read_serverRef]

theorem copy_key (d : Server) : d.copy.key = d.key := rfl

theorem mem_lastCopies (D : List Server) (n : Nat) (r : ServerRegistRequest)
    (hr : r ∈ lastCopies D n) : ∃ last ∈ D, r = last.copy := by
  unfold lastCopies at hr
  cases hlast : D.getLast? with
  | none => rw [hlast] at hr; exact absurd hr (List.not_mem_nil _)
  | some last =>
    rw [hlast] at hr
    exact ⟨last, List.mem_of_mem_getLast? hlast, (List.mem_replicate.mp hr).2⟩

theorem length_lastCopies (D : List Server) (p : Server → Bool) :
    (lastCopies D (D.filter p).length).length = (D.filter p).length := by
  unfold lastCopies
  cases hlast : D.getLast? with
  | none =>
    have hnil : D = [] := List.getLast?_eq_none_iff.mp hlast
    simp [hnil]
  | some last => simp

/-- C1, as the code behaves: for the desired list `[s1, s2]` against an empty cluster,
`scanServers` succeeds, schedules no deletion and writes the ADD rows of `s1` and `s2`, but
the two requests it leaves in `createServer` both read as `s2`, the last desired server:
the fields of `s1` are not what the first request carries. -/
theorem scanServers_creates_read_last :
    (scanServers sampleConsts sampleErrListPool emptyListing pairCmd).1 = ErrSuccess ∧
    (scanServers sampleConsts sampleErrListPool emptyListing pairCmd).2.deleteServer = [] ∧
    (scanServers sampleConsts sampleErrListPool emptyListing pairCmd).2.Table =
      [addRow sampleConsts s1, addRow sampleConsts s2] ∧
    (scanServers sampleConsts sampleErrListPool emptyListing pairCmd).2.createServer =
      [s2.copy, s2.copy] ∧
    s1.copy ≠ s2.copy := by
  decide

/-- C2, as the code behaves: for the desired list `[s2, s1]` against the actual records
`a1` (the identity of `s1`) and `a3`, with distinct ids, `scanServers` schedules the deletion
of `a3` and one create that reads as `s1`; after applying both, the key of `s2` is missing
from the collection although `s2` is desired. -/
theorem scanServers_misses_desired_key :
    swapCmd.topology.Servers = [s2, s1] ∧
    actualServers driftListing swapCmd = [a1, a3] ∧
    ((actualServers driftListing swapCmd).map ServerInfo.ServerID).Nodup ∧
    (scanServers sampleConsts sampleErrListPool driftListing swapCmd).2.createServer =
      [s1.copy] ∧
    (scanServers sampleConsts sampleErrListPool driftListing swapCmd).2.deleteServer =
      [⟨13⟩] ∧
    s2.key ∈ swapCmd.topology.Servers.map Server.key ∧
    s2.key ∉ (applyOps (actualServers driftListing swapCmd)
      (scanServers sampleConsts sampleErrListPool driftListing swapCmd).2.createServer
      (scanServers sampleConsts sampleErrListPool driftListing swapCmd).2.deleteServer).map
        Entry.key := by
  decide

/-- C3: the operations scheduled by one run are disjoint in identity. When every listing
succeeds and nothing was scheduled before, `deleteServer` holds, in order, the ids of the
actual records whose key no desired server has, and no request of `createServer` has the
key of one of these records. When moreover the actual records carry pairwise distinct ids,
no request of `createServer` has the key of any actual record whose id is in
`deleteServer`. -/
theorem scanServers_disjoint (c : RowConsts) (E : TopoStatusCode → CmdError)
    (rpc : ListZoneServerRequest → ListZoneServerResponse × CmdError)
    (tCmd : TopologyCommand) (h : ListingOk rpc tCmd)
    (hdel : tCmd.deleteServer = []) (hcre : tCmd.createServer = []) :
    (scanServers c E rpc tCmd).2.deleteServer =
      ((actualServers rpc tCmd).filter
        (fun a => decide (a.key ∉ tCmd.topology.Servers.map Server.key))).map
        (fun a => (⟨a.ServerID⟩ : DeleteServerRequest)) ∧
    (∀ r ∈ (scanServers c E rpc tCmd).2.createServer,
      ∀ a ∈ (actualServers rpc tCmd).filter
        (fun a => decide (a.key ∉ tCmd.topology.Servers.map Server.key)),
      r.key ≠ a.key) ∧
    (((actualServers rpc tCmd).map ServerInfo.ServerID).Nodup →
      ∀ r ∈ (scanServers c E rpc tCmd).2.createServer, ∀ a ∈ actualServers rpc tCmd,
        (⟨a.ServerID⟩ : DeleteServerRequest) ∈ (scanServers c E rpc tCmd).2.deleteServer →
        r.key ≠ a.key) := by
  rw [scanServers_eq c E rpc tCmd h]
  simp only [hdel, hcre, List.nil_append]
  have hkey : ∀ r ∈ lastCopies tCmd.topology.Servers
      (tCmd.topology.Servers.filter
        (fun s => decide (s.key ∉ (actualServers rpc tCmd).map ServerInfo.key))).length,
      r.key ∈ tCmd.topology.Servers.map Server.key := by
    intro r hr
    obtain ⟨last, hlast, rfl⟩ := mem_lastCopies _ _ r hr
    rw [copy_key]
    exact List.mem_map_of_mem _ hlast
  refine ⟨trivial, ?_, ?_⟩
  · intro r hr a ha hk
    have hsel := (List.mem_filter.mp ha).2
    simp only [decide_eq_true_eq] at hsel
    exact hsel (hk ▸ hkey r hr)
  · intro hid r hr a ha hin hk
    have hinj := List.inj_on_of_nodup_map hid
    obtain ⟨b, hb, hba⟩ := List.mem_map.mp hin
    have hids : b.ServerID = a.ServerID := by simpa using hba
    have hab : b = a := hinj (List.mem_filter.mp hb).1 ha hids
    subst hab
    have hsel := (List.mem_filter.mp hb).2
    simp only [decide_eq_true_eq] at hsel
    exact hsel (hk ▸ hkey r hr)

/-- C3 at a sample: desired `[s2, s1]` against actual `[a1, a3]`; the create that is
scheduled reads as `s1`, the deletion is the one of `a3`, and their keys differ. -/
theorem scanServers_disjoint_witness :
    ListingOk driftListing swapCmd ∧ swapCmd.deleteServer = [] ∧ swapCmd.createServer = [] ∧
    ((actualServers driftListing swapCmd).map ServerInfo.ServerID).Nodup ∧
    s1.copy ∈ (scanServers sampleConsts sampleErrListPool driftListing swapCmd).2.createServer ∧
    a3 ∈ actualServers driftListing swapCmd ∧
    (⟨a3.ServerID⟩ : DeleteServerRequest) ∈
      (scanServers sampleConsts sampleErrListPool driftListing swapCmd).2.deleteServer ∧
    s1.copy.key ≠ a3.key :=
  have hOk : ListingOk driftListing swapCmd := fun _ _ => ⟨rfl, rfl⟩
  have hid : ((actualServers driftListing swapCmd).map ServerInfo.ServerID).Nodup := by
    decide
  have h1 : s1.copy ∈
      (scanServers sampleConsts sampleErrListPool driftListing swapCmd).2.createServer := by
    decide
  have h2 : a3 ∈ actualServers driftListing swapCmd := by decide
  have h3 : (⟨a3.ServerID⟩ : DeleteServerRequest) ∈
      (scanServers sampleConsts sampleErrListPool driftListing swapCmd).2.deleteServer := by
    decide
  ⟨hOk, rfl, rfl, hid, h1, h2, h3,
    (scanServers_disjoint sampleConsts sampleErrListPool driftListing swapCmd hOk rfl
      rfl).2.2 hid s1.copy h1 a3 h2 h3⟩

/-- C4: idempotence. When every listing succeeds and the actual list has exactly one record
per desired server with the same identity key, in any order (the keys of the two lists are
permutations of each other; ids, addresses and ports are free), `scanServers` returns success and leaves `deleteServer`, `createServer`
and the table as they were: no operation is scheduled and no row is added. -/
theorem scanServers_idempotent (c : RowConsts) (E : TopoStatusCode → CmdError)
    (rpc : ListZoneServerRequest → ListZoneServerResponse × CmdError)
    (tCmd : TopologyCommand) (h : ListingOk rpc tCmd)
    (hsame : (tCmd.topology.Servers.map Server.key).Perm
      ((actualServers rpc tCmd).map ServerInfo.key)) :
    (scanServers c E rpc tCmd).1 = ErrSuccess ∧
    (scanServers c E rpc tCmd).2.deleteServer = tCmd.deleteServer ∧
    (scanServers c E rpc tCmd).2.createServer = tCmd.createServer ∧
    (scanServers c E rpc tCmd).2.Table = tCmd.Table := by
  rw [scanServers_eq c E rpc tCmd h]
  have hA : (actualServers rpc tCmd).filter
      (fun a => decide (a.key ∉ tCmd.topology.Servers.map Server.key)) = [] := by
    rw [List.filter_eq_nil_iff]
    intro a ha
    have : a.key ∈ tCmd.topology.Servers.map Server.key :=
      hsame.mem_iff.mpr (List.mem_map_of_mem _ ha)
    simpa using this
  have hD : tCmd.topology.Servers.filter
      (fun s => decide (s.key ∉ (actualServers rpc tCmd).map ServerInfo.key)) = [] := by
    rw [List.filter_eq_nil_iff]
    intro d hd
    have : d.key ∈ (actualServers rpc tCmd).map ServerInfo.key :=
      hsame.mem_iff.mp (List.mem_map_of_mem _ hd)
    simpa using this
  have hnone : lastCopies tCmd.topology.Servers 0 = [] := by
    unfold lastCopies
    cases tCmd.topology.Servers.getLast? <;> rfl
  simp only [hA, hD, List.map_nil, List.append_nil, List.length_nil, hnone, and_self]

/-- C4 at a sample: desired `[s1, s2]` against actual `[a2, a1]`, where `a1` has the identity
of `s1` under other addresses and ports. -/
theorem scanServers_idempotent_witness :
    ListingOk sameListing pairCmd ∧
    (pairCmd.topology.Servers.map Server.key).Perm
      ((actualServers sameListing pairCmd).map ServerInfo.key) ∧
    (scanServers sampleConsts sampleErrListPool sameListing pairCmd).1 = ErrSuccess ∧
    (scanServers sampleConsts sampleErrListPool sameListing pairCmd).2.deleteServer
      = pairCmd.deleteServer ∧
    (scanServers sampleConsts sampleErrListPool sameListing pairCmd).2.createServer
      = pairCmd.createServer ∧
    (scanServers sampleConsts sampleErrListPool sameListing pairCmd).2.Table = pairCmd.Table :=
  have hOk : ListingOk sameListing pairCmd := fun _ _ => ⟨rfl, rfl⟩
  have hsame : (pairCmd.topology.Servers.map Server.key).Perm
      ((actualServers sameListing pairCmd).map ServerInfo.key) :=
    List.Perm.swap _ _ _
  ⟨hOk, hsame, scanServers_idempotent sampleConsts sampleErrListPool sameListing pairCmd hOk
    hsame⟩

/-- C5, as the code behaves: for the desired list `[s2, s1]` against the actual records
`a1` and `a3`, the desired server `s1` has the identity of `a1` and other addresses and
ports, and yet the one request left in `createServer` reads as `s1`, with the addresses and
ports of `s1`. -/
theorem scanServers_creates_matched_server :
    s1 ∈ swapCmd.topology.Servers ∧ a1 ∈ actualServers driftListing swapCmd ∧
    s1.key = a1.key ∧ s1.InternalIp ≠ a1.InternalIp ∧ s1.InternalPort ≠ a1.InternalPort ∧
    (scanServers sampleConsts sampleErrListPool driftListing swapCmd).2.createServer =
      [s1.copy] ∧
    s1.copy.key = a1.key := by
  decide

/-- C6, as the code behaves: a desired list that declares the identity of `s1` twice (with
different addresses) is accepted; `scanServers` returns success and leaves two requests in
`createServer`. -/
theorem scanServers_duplicates_accepted :
    s1.key = s1b.key ∧ dupCmd.topology.Servers = [s1, s1b] ∧
    (scanServers sampleConsts sampleErrListPool emptyListing dupCmd).1 = ErrSuccess ∧
    (scanServers sampleConsts sampleErrListPool emptyListing dupCmd).2.createServer
      = [s1b.copy, s1b.copy] ∧
    (scanServers sampleConsts sampleErrListPool emptyListing dupCmd).2.Table
      = [addRow sampleConsts s1, addRow sampleConsts s1b] := by
  decide

/-- C6, amended: duplicates in the desired list are not detected. When every listing
succeeds `scanServers` returns success whatever the desired list, and it treats every
desired server on its own: the ADD rows it writes are those of the desired servers whose
key no actual record has, in order, and it appends as many requests to `createServer`.
So for every identity key the number of desired servers selected with that key is the
number of desired servers with that key when no actual record has it, and zero when one
has: all copies of a duplicated entry, or none. -/
theorem scanServers_duplicates (c : RowConsts) (E : TopoStatusCode → CmdError)
    (rpc : ListZoneServerRequest → ListZoneServerResponse × CmdError)
    (tCmd : TopologyCommand) (h : ListingOk rpc tCmd)
    (k : String × String × String) :
    (scanServers c E rpc tCmd).1.TypeCode = CODE_SUCCESS ∧
    (scanServers c E rpc tCmd).2.Table = tCmd.Table ++
      ((actualServers rpc tCmd).filter
        (fun a => decide (a.key ∉ tCmd.topology.Servers.map Server.key))).map (delRow c) ++
      (tCmd.topology.Servers.filter
        (fun s => decide (s.key ∉ (actualServers rpc tCmd).map ServerInfo.key))).map
        (addRow c) ∧
    (scanServers c E rpc tCmd).2.createServer.length = tCmd.createServer.length +
      (tCmd.topology.Servers.filter
        (fun s => decide (s.key ∉ (actualServers rpc tCmd).map ServerInfo.key))).length ∧
    List.countP (fun d => decide (d.key = k))
        (tCmd.topology.Servers.filter
          (fun s => decide (s.key ∉ (actualServers rpc tCmd).map ServerInfo.key))) =
      if k ∈ (actualServers rpc tCmd).map ServerInfo.key then 0
      else List.countP (fun d => decide (d.key = k)) tCmd.topology.Servers := by
  rw [scanServers_eq c E rpc tCmd h]
  refine ⟨rfl, rfl, ?_, ?_⟩
  · simp only [List.length_append, length_lastCopies]
  · simp only [List.countP_filter]
    split
    · rename_i hk
      rw [List.countP_eq_zero]
      intro d _
      simp only [Bool.and_eq_true, decide_eq_true_eq, not_and, not_not]
      intro hd
      exact hd ▸ hk
    · rename_i hk
      apply List.countP_congr
      intro d _
      simp only [Bool.and_eq_true, decide_eq_true_eq]
      constructor
      · exact fun hd => hd.1
      · exact fun hd => ⟨hd, hd ▸ hk⟩

/-- C6 amended, at the sample with the identity of `s1` declared twice: success, two
requests appended, and both copies selected. -/
theorem scanServers_duplicates_witness :
    ListingOk emptyListing dupCmd ∧
    (scanServers sampleConsts sampleErrListPool emptyListing dupCmd).1.TypeCode
      = CODE_SUCCESS ∧
    (scanServers sampleConsts sampleErrListPool emptyListing dupCmd).2.createServer.length
      = 2 ∧
    List.countP (fun d => decide (d.key = s1.key))
      (dupCmd.topology.Servers.filter
        (fun s => decide (s.key ∉ (actualServers emptyListing dupCmd).map ServerInfo.key)))
      = 2 :=
  have hOk : ListingOk emptyListing dupCmd := fun _ _ => ⟨rfl, rfl⟩
  ⟨hOk,
    (scanServers_duplicates sampleConsts sampleErrListPool emptyListing dupCmd hOk s1.key).1,
    (scanServers_duplicates sampleConsts sampleErrListPool emptyListing dupCmd hOk
      s1.key).2.2.1.trans (by decide),
    (scanServers_duplicates sampleConsts sampleErrListPool emptyListing dupCmd hOk
      s1.key).2.2.2.trans (by decide)⟩

/-! ## Theorems: `removeServers` and `createServers` -/

theorem removeLoop_skip_ok (E : TopoStatusCode → String → CmdError)
    (rpc : DeleteServerRequest → DeleteServerResponse × CmdError)
    (pre rest sent : List DeleteServerRequest) (h : ∀ x ∈ pre, DeleteOk rpc x) :
    removeServers.loop E rpc (pre ++ rest) sent = removeServers.loop E rpc rest (sent ++ pre) := by
  induction pre generalizing sent with
  | nil => simp
  | cons x xs ih =>
    have hx := h x (List.mem_cons_self _ _)
    have hxs : ∀ y ∈ xs, DeleteOk rpc y := fun y hy => h y (List.mem_cons_of_mem _ hy)
    rw [List.cons_append]
    simp only [removeServers.loop]
    rw [if_neg (by simp [hx.1]), if_neg (by simp [hx.2]), ih _ hxs]
    simp

theorem removeLoop_fail (E : TopoStatusCode → String → CmdError)
    (rpc : DeleteServerRequest → DeleteServerResponse × CmdError)
    (r : DeleteServerRequest) (post sent : List DeleteServerRequest) (h : ¬ DeleteOk rpc r) :
    removeServers.loop E rpc (r :: post) sent = (deleteFailure E rpc r, sent ++ [r]) := by
  simp only [removeServers.loop, deleteFailure]
  by_cases he : (rpc r).2.TypeCode = CODE_SUCCESS
  · have hs : (rpc r).1.StatusCode ≠ TopoStatusCode_TOPO_OK := fun hs => h ⟨he, hs⟩
    rw [if_neg (by simp [he]), if_pos hs, if_neg (by simp [he])]
  · rw [if_pos he, if_pos he]

theorem removeLoop_success_iff (E : TopoStatusCode → String → CmdError)
    (rpc : DeleteServerRequest → DeleteServerResponse × CmdError)
    (hE : ∀ code, code ≠ TopoStatusCode_TOPO_OK → (E code TYPE_SERVER).TypeCode ≠ CODE_SUCCESS)
    (reqs sent : List DeleteServerRequest) :
    (removeServers.loop E rpc reqs sent).1.TypeCode = CODE_SUCCESS ↔
      ∀ x ∈ reqs, DeleteOk rpc x := by
  induction reqs generalizing sent with
  | nil => simp [removeServers.loop, ErrSuccess, CmdError.TypeCode]
  | cons r rs ih =>
    by_cases hr : DeleteOk rpc r
    · have := removeLoop_skip_ok E rpc [r] rs sent (by simpa using hr)
      rw [List.singleton_append] at this
      rw [this, ih]
      simp [hr]
    · rw [removeLoop_fail E rpc r rs sent hr]
      have hne : (deleteFailure E rpc r).TypeCode ≠ CODE_SUCCESS := by
        unfold deleteFailure
        by_cases he : (rpc r).2.TypeCode = CODE_SUCCESS
        · rw [if_neg (by simp [he])]
          exact hE _ (fun hs => hr ⟨he, hs⟩)
        · rw [if_pos he]; exact he
      simp [hne, hr]

theorem removeLoop_sent (E : TopoStatusCode → String → CmdError)
    (rpc : DeleteServerRequest → DeleteServerResponse × CmdError)
    (reqs sent : List DeleteServerRequest) :
    ∃ l, l <+: reqs ∧ (removeServers.loop E rpc reqs sent).2 = sent ++ l := by
  induction reqs generalizing sent with
  | nil => exact ⟨[], List.prefix_refl _, by simp [removeServers.loop]⟩
  | cons r rs ih =>
    by_cases hr : DeleteOk rpc r
    · have := removeLoop_skip_ok E rpc [r] rs sent (by simpa using hr)
      rw [List.singleton_append] at this
      obtain ⟨l, hl, hs⟩ := ih (sent ++ [r])
      refine ⟨r :: l, (List.prefix_cons_inj r).mpr hl, ?_⟩
      rw [this, hs]; simp
    · rw [removeLoop_fail E rpc r rs sent hr]
      exact ⟨[r], by simp, rfl⟩

theorem createLoop_skip_ok (E : TopoStatusCode → String → CmdError)
    (rpc : ServerRegistRequest → ServerRegistResponse × CmdError)
    (pre rest sent : List ServerRegistRequest) (h : ∀ x ∈ pre, CreateOk rpc x) :
    createServers.loop E rpc (pre ++ rest) sent = createServers.loop E rpc rest (sent ++ pre) := by
  induction pre generalizing sent with
  | nil => simp
  | cons x xs ih =>
    have hx := h x (List.mem_cons_self _ _)
    have hxs : ∀ y ∈ xs, CreateOk rpc y := fun y hy => h y (List.mem_cons_of_mem _ hy)
    rw [List.cons_append]
    simp only [createServers.loop]
    rw [if_neg (by simp [hx.1]), if_neg (by simp [hx.2]), ih _ hxs]
    simp

theorem createLoop_fail (E : TopoStatusCode → String → CmdError)
    (rpc : ServerRegistRequest → ServerRegistResponse × CmdError)
    (r : ServerRegistRequest) (post sent : List ServerRegistRequest) (h : ¬ CreateOk rpc r) :
    createServers.loop E rpc (r :: post) sent = (createFailure E rpc r, sent ++ [r]) := by
  simp only [createServers.loop, createFailure]
  by_cases he : (rpc r).2.TypeCode = CODE_SUCCESS
  · have hs : (rpc r).1.StatusCode ≠ TopoStatusCode_TOPO_OK := fun hs => h ⟨he, hs⟩
    rw [if_neg (by simp [he]), if_pos hs, if_neg (by simp [he])]
  · rw [if_pos he, if_pos he]

theorem createLoop_success_iff (E : TopoStatusCode → String → CmdError)
    (rpc : ServerRegistRequest → ServerRegistResponse × CmdError)
    (hE : ∀ code, code ≠ TopoStatusCode_TOPO_OK → (E code TYPE_SERVER).TypeCode ≠ CODE_SUCCESS)
    (reqs sent : List ServerRegistRequest) :
    (createServers.loop E rpc reqs sent).1.TypeCode = CODE_SUCCESS ↔
      ∀ x ∈ reqs, CreateOk rpc x := by
  induction reqs generalizing sent with
  | nil => simp [createServers.loop, ErrSuccess, CmdError.TypeCode]
  | cons r rs ih =>
    by_cases hr : CreateOk rpc r
    · have := createLoop_skip_ok E rpc [r] rs sent (by simpa using hr)
      rw [List.singleton_append] at this
      rw [this, ih]
      simp [hr]
    · rw [createLoop_fail E rpc r rs sent hr]
      have hne : (createFailure E rpc r).TypeCode ≠ CODE_SUCCESS := by
        unfold createFailure
        by_cases he : (rpc r).2.TypeCode = CODE_SUCCESS
        · rw [if_neg (by simp [he])]
          exact hE _ (fun hs => hr ⟨he, hs⟩)
        · rw [if_pos he]; exact he
      simp [hne, hr]

theorem createLoop_sent (E : TopoStatusCode → String → CmdError)
    (rpc : ServerRegistRequest → ServerRegistResponse × CmdError)
    (reqs sent : List ServerRegistRequest) :
    ∃ l, l <+: reqs ∧ (createServers.loop E rpc reqs sent).2 = sent ++ l := by
  induction reqs generalizing sent with
  | nil => exact ⟨[], List.prefix_refl _, by simp [createServers.loop]⟩
  | cons r rs ih =>
    by_cases hr : CreateOk rpc r
    · have := createLoop_skip_ok E rpc [r] rs sent (by simpa using hr)
      rw [List.singleton_append] at this
      obtain ⟨l, hl, hs⟩ := ih (sent ++ [r])
      refine ⟨r :: l, (List.prefix_cons_inj r).mpr hl, ?_⟩
      rw [this, hs]; simp
    · rw [createLoop_fail E rpc r rs sent hr]
      exact ⟨[r], by simp, rfl⟩

/-- C7: fail-fast apply without rollback, for error constructors that give no success code
to a status other than `TOPO_OK`. `removeServers` and `createServers` hand the scheduled
requests to the remote one at a time in list order. At the first request whose outcome is a
transport error or a status other than `TOPO_OK` they return that error (the transport error
itself, or the topology error of the status) having sent exactly the requests up to and
including it: none of the remaining ones and nothing else. When every outcome is `TOPO_OK`
(also for the empty list) they return `ErrSuccess` having sent the whole list; the returned
type code is the success code exactly in that case; and the requests sent always form a
prefix of the scheduled list. -/
theorem apply_fail_fast (Ed Ec : TopoStatusCode → String → CmdError)
    (rpcD : DeleteServerRequest → DeleteServerResponse × CmdError)
    (rpcC : ServerRegistRequest → ServerRegistResponse × CmdError)
    (tCmd : TopologyCommand)
    (hEd : ∀ code, code ≠ TopoStatusCode_TOPO_OK →
      (Ed code TYPE_SERVER).TypeCode ≠ CODE_SUCCESS)
    (hEc : ∀ code, code ≠ TopoStatusCode_TOPO_OK →
      (Ec code TYPE_SERVER).TypeCode ≠ CODE_SUCCESS) :
    ((∀ pre r post, tCmd.deleteServer = pre ++ r :: post → (∀ x ∈ pre, DeleteOk rpcD x) →
        ¬ DeleteOk rpcD r →
        removeServers Ed rpcD tCmd = (deleteFailure Ed rpcD r, pre ++ [r])) ∧
      ((∀ x ∈ tCmd.deleteServer, DeleteOk rpcD x) →
        removeServers Ed rpcD tCmd = (ErrSuccess, tCmd.deleteServer)) ∧
      ((removeServers Ed rpcD tCmd).1.TypeCode = CODE_SUCCESS ↔
        ∀ x ∈ tCmd.deleteServer, DeleteOk rpcD x) ∧
      (removeServers Ed rpcD tCmd).2 <+: tCmd.deleteServer) ∧
    ((∀ pre r post, tCmd.createServer = pre ++ r :: post → (∀ x ∈ pre, CreateOk rpcC x) →
        ¬ CreateOk rpcC r →
        createServers Ec rpcC tCmd = (createFailure Ec rpcC r, pre ++ [r])) ∧
      ((∀ x ∈ tCmd.createServer, CreateOk rpcC x) →
        createServers Ec rpcC tCmd = (ErrSuccess, tCmd.createServer)) ∧
      ((createServers Ec rpcC tCmd).1.TypeCode = CODE_SUCCESS ↔
        ∀ x ∈ tCmd.createServer, CreateOk rpcC x) ∧
      (createServers Ec rpcC tCmd).2 <+: tCmd.createServer) := by
  refine ⟨⟨?_, ?_, ?_, ?_⟩, ⟨?_, ?_, ?_, ?_⟩⟩
  · intro pre r post hsplit hpre hr
    unfold removeServers
    rw [hsplit, removeLoop_skip_ok Ed rpcD pre (r :: post) [] hpre,
      removeLoop_fail Ed rpcD r post _ hr]
    simp
  · intro hall
    unfold removeServers
    have := removeLoop_skip_ok Ed rpcD tCmd.deleteServer [] [] hall
    rw [List.append_nil] at this
    rw [this]
    simp [removeServers.loop]
  · exact removeLoop_success_iff Ed rpcD hEd _ _
  · obtain ⟨l, hl, hs⟩ := removeLoop_sent Ed rpcD tCmd.deleteServer []
    unfold removeServers
    rw [hs]
    simpa using hl
  · intro pre r post hsplit hpre hr
    unfold createServers
    rw [hsplit, createLoop_skip_ok Ec rpcC pre (r :: post) [] hpre,
      createLoop_fail Ec rpcC r post _ hr]
    simp
  · intro hall
    unfold createServers
    have := createLoop_skip_ok Ec rpcC tCmd.createServer [] [] hall
    rw [List.append_nil] at this
    rw [this]
    simp [createServers.loop]
  · exact createLoop_success_iff Ec rpcC hEc _ _
  · obtain ⟨l, hl, hs⟩ := createLoop_sent Ec rpcC tCmd.createServer []
    unfold createServers
    rw [hs]
    simpa using hl

theorem sampleErrTopology_ne_success (code : TopoStatusCode)
    (_ : code ≠ TopoStatusCode_TOPO_OK) :
    (sampleErrTopology code TYPE_SERVER).TypeCode ≠ CODE_SUCCESS := by
  simp only [sampleErrTopology, CmdError.TypeCode, CODE_SUCCESS]
  omega

/-- C7 at a sample: deletions of 11, 13, 12 scheduled and the deletion of 13 rejected with
status 4; the requests for 11 and 13 are sent, the one for 12 is not, and the error of
status 4 is returned. -/
theorem apply_fail_fast_witness :
    (∀ code, code ≠ TopoStatusCode_TOPO_OK →
      (sampleErrTopology code TYPE_SERVER).TypeCode ≠ CODE_SUCCESS) ∧
    removeServers sampleErrTopology rejectThirteen applyCmd =
      (deleteFailure sampleErrTopology rejectThirteen ⟨13⟩, [⟨11⟩, ⟨13⟩]) ∧
    deleteFailure sampleErrTopology rejectThirteen ⟨13⟩ = sampleErrTopology 4 TYPE_SERVER ∧
    createServers sampleErrTopology acceptAll applyCmd = (ErrSuccess, [s1.copy]) :=
  ⟨sampleErrTopology_ne_success,
    (apply_fail_fast sampleErrTopology sampleErrTopology rejectThirteen acceptAll applyCmd
      sampleErrTopology_ne_success sampleErrTopology_ne_success).1.1
      [⟨11⟩] ⟨13⟩ [⟨12⟩] rfl (by decide) (by decide),
    by decide,
    (apply_fail_fast sampleErrTopology sampleErrTopology rejectThirteen acceptAll applyCmd
      sampleErrTopology_ne_success sampleErrTopology_ne_success).2.2.1
      (by decide)⟩

/-! ## Theorems: `CopysetCommand.RunCommand` -/

theorem foldl_append_string (acc : String) (l : List String) :
    l.foldl (fun r s => r ++ s) acc = acc ++ String.join l := by
  induction l generalizing acc with
  | nil => simp [String.join]
  | cons x xs ih =>
    have hx : String.join (x :: xs) = x ++ String.join xs := by
      simp only [String.join, List.foldl_cons]
      rw [ih]
      simp [String.join]
    rw [List.foldl_cons, ih, hx, String.append_assoc]

theorem join_cons (x : String) (xs : List String) :
    String.join (x :: xs) = x ++ String.join xs := by
  simp only [String.join, List.foldl_cons]
  rw [foldl_append_string, foldl_append_string]
  simp [String.join]

theorem foldl_explainStep (msgs : List CmdError) (explain : String) (errs : List CmdError) :
    msgs.foldl RunCommand.explainStep (explain, errs) =
      (explain ++ String.join (msgs.map (fun e => e.Message ++ "|")), errs ++ msgs) := by
  induction msgs generalizing explain errs with
  | nil => simp [String.join]
  | cons e es ih =>
    rw [List.foldl_cons, RunCommand.explainStep, ih, List.map_cons, join_cons]
    simp [String.append_assoc]

theorem body_eq {ι : Type} (k : CopysetConsts) (check : Option ι → Int × List CmdError)
    (rows : List Row) (errs : List CmdError) (kv : Nat × Option ι) :
    RunCommand.body k check (rows, errs) kv =
      (rows ++ [rowOf k check kv], errs ++ messagesOf k check kv) := by
  obtain ⟨key, v⟩ := kv
  cases v with
  | none =>
    simp [RunCommand.body, rowOf, messagesOf, setCol, ROW_COPYSETKEY, ROW_STATUS]
  | some v =>
    by_cases hs : (check (some v)).1 = k.COPYSET_OK
    · simp [RunCommand.body, rowOf, messagesOf, setCol, ROW_COPYSETKEY, ROW_STATUS, hs]
    · simp [RunCommand.body, rowOf, messagesOf, setCol, ROW_COPYSETKEY, ROW_STATUS,
        ROW_EXPLAIN, hs, foldl_explainStep, explainOf]

theorem foldl_body {ι : Type} (k : CopysetConsts) (check : Option ι → Int × List CmdError)
    (m : List (Nat × Option ι)) (rows : List Row) (errs : List CmdError) :
    m.foldl (RunCommand.body k check) (rows, errs) =
      (rows ++ m.map (rowOf k check), errs ++ m.flatMap (messagesOf k check)) := by
  induction m generalizing rows errs with
  | nil => simp
  | cons kv kvs ih =>
    rw [List.foldl_cons, body_eq, ih]
    simp [List.flatMap_cons, List.append_assoc]

/-- The whole of `RunCommand`: the merged error and the table. -/
theorem RunCommand_eq {ι : Type} (k : CopysetConsts) (check : Option ι → Int × List CmdError)
    (M : List CmdError → CmdError) (cCmd : CopysetCommand ι) :
    CopysetCommand.RunCommand k check M cCmd =
      { cCmd with
        Error := M (cCmd.key2Copyset.flatMap (messagesOf k check))
        Table := cCmd.Table ++
          List.insertionSort RunCommand.less (cCmd.key2Copyset.map (rowOf k check)) } := by
  simp [CopysetCommand.RunCommand, foldl_body]

/-- C8, as the code behaves: for the absent keys 9 and 10 the table holds the row of 10
before the row of 9, whichever order the map is visited in, because the rows are compared
by the text of the key column. -/
theorem RunCommand_ten_before_nine :
    (CopysetCommand.RunCommand sampleCopysetConsts sampleCheck sampleMerge nineTenCmd).Table
      = [notExistRow sampleCopysetConsts 10, notExistRow sampleCopysetConsts 9] ∧
    (CopysetCommand.RunCommand sampleCopysetConsts sampleCheck sampleMerge tenNineCmd).Table
      = [notExistRow sampleCopysetConsts 10, notExistRow sampleCopysetConsts 9] := by
  have h9 : toString (9 : Nat) = "9" := rfl
  have h10 : toString (10 : Nat) = "10" := rfl
  have hlt : ("10" : String) < "9" := by rw [String.lt_iff_toList_lt]; decide
  have hnlt : ¬ ("9" : String) < "10" := by rw [String.lt_iff_toList_lt]; decide
  constructor
  · rw [RunCommand_eq]
    simp [nineTenCmd, rowOf, notExistRow, List.insertionSort, List.orderedInsert,
      RunCommand.less, getCol, List.lookup, ROW_COPYSETKEY, h9, h10, hnlt]
  · rw [RunCommand_eq]
    simp [tenNineCmd, rowOf, notExistRow, List.insertionSort, List.orderedInsert,
      RunCommand.less, getCol, List.lookup, ROW_COPYSETKEY, h9, h10, hlt]

/-- C9: an absent copyset. If the map holds the key with a `nil` status, at any place of the
visiting order, then the table gains, up to order, exactly the NOT_EXIST row of the key
beside the rows of the other entries; that row has the NOT_EXIST name as status and no
explain field; the merged error is the one of the map without the key; and a health check
that differs only on the `nil` pointer gives the same result, so the check is not consulted
for the absent key. -/
theorem RunCommand_absent {ι : Type} (k : CopysetConsts)
    (check check' : Option ι → Int × List CmdError) (M : List CmdError → CmdError)
    (cCmd : CopysetCommand ι) (m₁ m₂ : List (Nat × Option ι)) (key : Nat)
    (h : cCmd.key2Copyset = m₁ ++ (key, none) :: m₂)
    (hagree : ∀ v, check' (some v) = check (some v)) :
    (CopysetCommand.RunCommand k check M cCmd).Table.Perm
      (cCmd.Table ++ notExistRow k key ::
        (CopysetCommand.RunCommand k check M
          { cCmd with key2Copyset := m₁ ++ m₂, Table := [] }).Table) ∧
    getCol (notExistRow k key) ROW_COPYSETKEY = toString key ∧
    getCol (notExistRow k key) ROW_STATUS = k.CopysetHealthStatus_Str k.COPYSET_NOTEXIST ∧
    hasCol (notExistRow k key) ROW_EXPLAIN = false ∧
    (CopysetCommand.RunCommand k check M cCmd).Error =
      (CopysetCommand.RunCommand k check M { cCmd with key2Copyset := m₁ ++ m₂ }).Error ∧
    CopysetCommand.RunCommand k check' M cCmd = CopysetCommand.RunCommand k check M cCmd := by
  have hrow : rowOf k check' = rowOf k check := by
    funext kv
    obtain ⟨key', v⟩ := kv
    cases v with
    | none => rfl
    | some v => simp [rowOf, hagree]
  have hmsg : messagesOf k check' = messagesOf k check := by
    funext kv
    obtain ⟨key', v⟩ := kv
    cases v with
    | none => rfl
    | some v => simp [messagesOf, hagree]
  refine ⟨?_, ?_, ?_, ?_, ?_, ?_⟩
  · rw [RunCommand_eq, RunCommand_eq, h]
    apply List.Perm.append_left
    simp only [List.nil_append]
    have hnil : rowOf k check (key, none) = notExistRow k key := rfl
    calc List.insertionSort RunCommand.less ((m₁ ++ (key, none) :: m₂).map (rowOf k check))
        |>.Perm ((m₁ ++ (key, none) :: m₂).map (rowOf k check)) :=
          List.perm_insertionSort _ _
      _ |>.Perm (notExistRow k key :: (m₁ ++ m₂).map (rowOf k check)) := by
          rw [← hnil, ← List.map_cons]
          exact List.Perm.map _ List.perm_middle
      _ |>.Perm (notExistRow k key ::
            List.insertionSort RunCommand.less ((m₁ ++ m₂).map (rowOf k check))) :=
          List.Perm.cons _ (List.perm_insertionSort _ _).symm
  · simp [notExistRow, getCol, List.lookup]
  · simp [notExistRow, getCol, List.lookup, ROW_COPYSETKEY, ROW_STATUS]
  · simp [notExistRow, hasCol, List.lookup, ROW_COPYSETKEY, ROW_STATUS, ROW_EXPLAIN]
  · rw [RunCommand_eq, RunCommand_eq, h]
    simp [List.flatMap_append, List.flatMap_cons, messagesOf]
  · rw [RunCommand_eq, RunCommand_eq, hrow, hmsg]

/-- C9 at the sample: key 10 absent, visited after key 9. -/
theorem RunCommand_absent_witness :
    nineTenCmd.key2Copyset = [(9, none)] ++ (10, none) :: [] ∧
    (∀ v, sampleCheckNil (some v) = sampleCheck (some v)) ∧
    CopysetCommand.RunCommand sampleCopysetConsts sampleCheckNil sampleMerge nineTenCmd =
      CopysetCommand.RunCommand sampleCopysetConsts sampleCheck sampleMerge nineTenCmd :=
  ⟨rfl, fun _ => rfl,
    (RunCommand_absent sampleCopysetConsts sampleCheck sampleCheckNil sampleMerge nineTenCmd
      [(9, none)] [] 10 rfl (fun _ => rfl)).2.2.2.2.2⟩

/-- C10: all explanations are kept. For a present copyset of the map whose status is not OK:
the list handed to `MergeCmdError` is, in visiting order, the concatenation of the messages
of every present copyset that is not OK; as a multiset it is the union, with multiplicity,
of these messages over the map, whatever the visiting order; it contains every message of
the copyset at least as often as the copyset reports it; and the table holds the row of the
copyset whose explain field is a bar followed by each of its messages in order, each
followed by a bar. -/
theorem RunCommand_merges {ι : Type} (k : CopysetConsts)
    (check : Option ι → Int × List CmdError) (M : List CmdError → CmdError)
    (cCmd : CopysetCommand ι) (key : Nat) (v : ι)
    (hmem : (key, some v) ∈ cCmd.key2Copyset)
    (hbad : (check (some v)).1 ≠ k.COPYSET_OK) :
    (CopysetCommand.RunCommand k check M cCmd).Error =
      M (cCmd.key2Copyset.flatMap (messagesOf k check)) ∧
    ((cCmd.key2Copyset.flatMap (messagesOf k check) : List CmdError) : Multiset CmdError) =
      Multiset.bind (cCmd.key2Copyset : Multiset (Nat × Option ι))
        (fun kv => ((messagesOf k check kv : List CmdError) : Multiset CmdError)) ∧
    messagesOf k check (key, some v) = (check (some v)).2 ∧
    (∀ e, List.count e (check (some v)).2 ≤
      List.count e (cCmd.key2Copyset.flatMap (messagesOf k check))) ∧
    explainedRow k key (check (some v)).1 (check (some v)).2 ∈
      (CopysetCommand.RunCommand k check M cCmd).Table ∧
    getCol (explainedRow k key (check (some v)).1 (check (some v)).2) ROW_EXPLAIN =
      "|" ++ String.join ((check (some v)).2.map (fun e => e.Message ++ "|")) := by
  have hmsgs : messagesOf k check (key, some v) = (check (some v)).2 := by
    simp [messagesOf, hbad]
  have hrow : rowOf k check (key, some v) =
      explainedRow k key (check (some v)).1 (check (some v)).2 := by
    simp [rowOf, explainedRow, hbad]
  refine ⟨?_, ?_, hmsgs, ?_, ?_, ?_⟩
  · rw [RunCommand_eq]
  · exact (Multiset.coe_bind _ _).symm
  · intro e
    obtain ⟨m₁, m₂, hsplit⟩ := List.append_of_mem hmem
    rw [hsplit, List.flatMap_append, List.flatMap_cons, hmsgs, List.count_append,
      List.count_append]
    omega
  · rw [RunCommand_eq]
    apply List.mem_append_right
    rw [(List.perm_insertionSort _ _).mem_iff, ← hrow]
    exact List.mem_map_of_mem _ hmem
  · simp [explainedRow, getCol, List.lookup, ROW_COPYSETKEY, ROW_STATUS, ROW_EXPLAIN,
      explainOf]

/-- C10 at the sample: copysets 1 and 3 both report "no leader" and copyset 2 is healthy;
the merged list keeps both copies, and the row of copyset 1 carries both of its messages. -/
theorem RunCommand_merges_witness :
    (1, some ["no leader", "peer offline"]) ∈ threeCmd.key2Copyset ∧
    (sampleCheck (some ["no leader", "peer offline"])).1 ≠ sampleCopysetConsts.COPYSET_OK ∧
    threeCmd.key2Copyset.flatMap (messagesOf sampleCopysetConsts sampleCheck) =
      [⟨7, "no leader"⟩, ⟨7, "peer offline"⟩, ⟨7, "no leader"⟩] ∧
    (CopysetCommand.RunCommand sampleCopysetConsts sampleCheck sampleMerge threeCmd).Error =
      sampleMerge (threeCmd.key2Copyset.flatMap (messagesOf sampleCopysetConsts sampleCheck)) ∧
    getCol (explainedRow sampleCopysetConsts 1
        (sampleCheck (some ["no leader", "peer offline"])).1
        (sampleCheck (some ["no leader", "peer offline"])).2) ROW_EXPLAIN =
      "|no leader|peer offline|" :=
  have hmem : (1, some ["no leader", "peer offline"]) ∈ threeCmd.key2Copyset := by decide
  have hbad : (sampleCheck (some ["no leader", "peer offline"])).1 ≠
      sampleCopysetConsts.COPYSET_OK := by decide
  ⟨hmem, hbad, by decide,
    (RunCommand_merges sampleCopysetConsts sampleCheck sampleMerge threeCmd 1
      ["no leader", "peer offline"] hmem hbad).1,
    (RunCommand_merges sampleCopysetConsts sampleCheck sampleMerge threeCmd 1
      ["no leader", "peer offline"] hmem hbad).2.2.2.2.2.trans (by decide)⟩

/-! ## Theorems: what the apply phase reports -/

theorem removeServers_rejected (E : TopoStatusCode → String → CmdError)
    (rpc : DeleteServerRequest → DeleteServerResponse × CmdError) (tCmd : TopologyCommand)
    (pre post : List DeleteServerRequest) (r : DeleteServerRequest)
    (hsplit : tCmd.deleteServer = pre ++ r :: post) (hpre : ∀ x ∈ pre, DeleteOk rpc x)
    (hr : ¬ DeleteOk rpc r) :
    removeServers E rpc tCmd = (deleteFailure E rpc r, pre ++ [r]) := by
  unfold removeServers
  rw [hsplit, removeLoop_skip_ok E rpc pre (r :: post) [] hpre, removeLoop_fail E rpc r post _ hr]
  simp

theorem createServers_rejected (E : TopoStatusCode → String → CmdError)
    (rpc : ServerRegistRequest → ServerRegistResponse × CmdError) (tCmd : TopologyCommand)
    (pre post : List ServerRegistRequest) (r : ServerRegistRequest)
    (hsplit : tCmd.createServer = pre ++ r :: post) (hpre : ∀ x ∈ pre, CreateOk rpc x)
    (hr : ¬ CreateOk rpc r) :
    createServers E rpc tCmd = (createFailure E rpc r, pre ++ [r]) := by
  unfold createServers
  rw [hsplit, createLoop_skip_ok E rpc pre (r :: post) [] hpre, createLoop_fail E rpc r post _ hr]
  simp

theorem deleteFailure_status (E : TopoStatusCode → String → CmdError)
    (rpc : DeleteServerRequest → DeleteServerResponse × CmdError) (r : DeleteServerRequest)
    (h : (rpc r).2.TypeCode = CODE_SUCCESS) :
    deleteFailure E rpc r = E (rpc r).1.StatusCode TYPE_SERVER := by
  unfold deleteFailure
  rw [if_neg (by simp [h])]

theorem createFailure_status (E : TopoStatusCode → String → CmdError)
    (rpc : ServerRegistRequest → ServerRegistResponse × CmdError) (r : ServerRegistRequest)
    (h : (rpc r).2.TypeCode = CODE_SUCCESS) :
    createFailure E rpc r = E (rpc r).1.StatusCode TYPE_SERVER := by
  unfold createFailure
  rw [if_neg (by simp [h])]

/-- C12, as the code behaves: over the same scheduled deletions of 11, 13 and 12, a run
rejected with status 4 at the second request (two requests sent) and a run rejected with
status 4 at the third request (three requests sent) hand back the same value. -/
theorem removeServers_same_report :
    (removeServers sampleErrTopology rejectThirteen applyCmd).2 = [⟨11⟩, ⟨13⟩] ∧
    (removeServers sampleErrTopology rejectTwelve applyCmd).2 = [⟨11⟩, ⟨13⟩, ⟨12⟩] ∧
    (removeServers sampleErrTopology rejectThirteen applyCmd).1 =
      (removeServers sampleErrTopology rejectTwelve applyCmd).1 := by
  decide

/-- C12, amended: the value handed back by an aborted apply phase is only the error of the
failed operation. When the first request whose outcome is not `TOPO_OK` is answered with a
status, `removeServers` and `createServers` return the topology error built from that status
and the entity type `server`, whatever the requests before it and whichever request it is:
two runs over the same scheduled list rejected with the same status at different positions
return the same value. -/
theorem apply_failure_report (Ed Ec : TopoStatusCode → String → CmdError)
    (tCmd : TopologyCommand) (code : TopoStatusCode)
    (hcode : code ≠ TopoStatusCode_TOPO_OK) :
    (∀ (rpcD rpcD' : DeleteServerRequest → DeleteServerResponse × CmdError)
        (pre post pre' post' : List DeleteServerRequest) (r r' : DeleteServerRequest),
      tCmd.deleteServer = pre ++ r :: post → (∀ x ∈ pre, DeleteOk rpcD x) →
      ((rpcD r).2.TypeCode = CODE_SUCCESS ∧ (rpcD r).1.StatusCode = code) →
      tCmd.deleteServer = pre' ++ r' :: post' → (∀ x ∈ pre', DeleteOk rpcD' x) →
      ((rpcD' r').2.TypeCode = CODE_SUCCESS ∧ (rpcD' r').1.StatusCode = code) →
      (removeServers Ed rpcD tCmd).1 = Ed code TYPE_SERVER ∧
      (removeServers Ed rpcD' tCmd).1 = (removeServers Ed rpcD tCmd).1) ∧
    (∀ (rpcC rpcC' : ServerRegistRequest → ServerRegistResponse × CmdError)
        (pre post pre' post' : List ServerRegistRequest) (r r' : ServerRegistRequest),
      tCmd.createServer = pre ++ r :: post → (∀ x ∈ pre, CreateOk rpcC x) →
      ((rpcC r).2.TypeCode = CODE_SUCCESS ∧ (rpcC r).1.StatusCode = code) →
      tCmd.createServer = pre' ++ r' :: post' → (∀ x ∈ pre', CreateOk rpcC' x) →
      ((rpcC' r').2.TypeCode = CODE_SUCCESS ∧ (rpcC' r').1.StatusCode = code) →
      (createServers Ec rpcC tCmd).1 = Ec code TYPE_SERVER ∧
      (createServers Ec rpcC' tCmd).1 = (createServers Ec rpcC tCmd).1) := by
  constructor
  · intro rpcD rpcD' pre post pre' post' r r' hD hpre hr hD' hpre' hr'
    have nD : ¬ DeleteOk rpcD r := fun h => hcode (hr.2 ▸ h.2)
    have nD' : ¬ DeleteOk rpcD' r' := fun h => hcode (hr'.2 ▸ h.2)
    rw [removeServers_rejected Ed rpcD tCmd pre post r hD hpre nD,
      removeServers_rejected Ed rpcD' tCmd pre' post' r' hD' hpre' nD',
      deleteFailure_status Ed rpcD r hr.1, deleteFailure_status Ed rpcD' r' hr'.1,
      hr.2, hr'.2]
    exact ⟨rfl, rfl⟩
  · intro rpcC rpcC' pre post pre' post' r r' hC hpre hr hC' hpre' hr'
    have nC : ¬ CreateOk rpcC r := fun h => hcode (hr.2 ▸ h.2)
    have nC' : ¬ CreateOk rpcC' r' := fun h => hcode (hr'.2 ▸ h.2)
    rw [createServers_rejected Ec rpcC tCmd pre post r hC hpre nC,
      createServers_rejected Ec rpcC' tCmd pre' post' r' hC' hpre' nC',
      createFailure_status Ec rpcC r hr.1, createFailure_status Ec rpcC' r' hr'.1,
      hr.2, hr'.2]
    exact ⟨rfl, rfl⟩

/-- C12 amended, at the sample: the rejection of server 13 at the second request and the
rejection of server 12 at the third, both with status 4, hand back the error of status 4. -/
theorem apply_failure_report_witness :
    (4 : TopoStatusCode) ≠ TopoStatusCode_TOPO_OK ∧
    (removeServers sampleErrTopology rejectThirteen applyCmd).1 =
      sampleErrTopology 4 TYPE_SERVER ∧
    (removeServers sampleErrTopology rejectTwelve applyCmd).1 =
      (removeServers sampleErrTopology rejectThirteen applyCmd).1 :=
  have hcode : (4 : TopoStatusCode) ≠ TopoStatusCode_TOPO_OK := by decide
  ⟨hcode,
    (apply_failure_report sampleErrTopology sampleErrTopology applyCmd 4 hcode).1
      rejectThirteen rejectTwelve [⟨11⟩] [⟨12⟩] [⟨11⟩, ⟨13⟩] [] ⟨13⟩ ⟨12⟩
      rfl (by decide) (by decide) rfl (by decide) (by decide)⟩

/-! ## Theorems: `Init` of the query command -/

theorem ParseUint32_lt (s : String) (n : Nat) (h : ParseUint32 s = some n) : n < 2 ^ 32 := by
  unfold ParseUint32 at h
  split at h
  · exact Option.noConfusion h
  · split at h
    · simp only at h
      split at h
      · rename_i hlt
        cases h
        exact hlt
      · exact Option.noConfusion h
    · exact Option.noConfusion h

theorem idLoop_eq (cfg : QueryConfig) (addrs : List String) (timeout : Nat) (retrytimes : Int)
    (ids : List String) (mCmd : QueryMetaserver.MetaserverCommand) :
    QueryMetaserver.Init.idLoop cfg addrs timeout retrytimes ids mCmd =
      (idError cfg ids,
        { mCmd with
          Rpc := mCmd.Rpc ++ (ids.takeWhile validId).map (rpcById addrs timeout retrytimes)
          Rows := mCmd.Rows ++ (ids.takeWhile validId).map rowById }) := by
  induction ids generalizing mCmd with
  | nil => simp [QueryMetaserver.Init.idLoop, idError]
  | cons s rest ih =>
    cases hp : ParseUint32 s with
    | none =>
      have hv : validId s = false := by simp [validId, hp]
      simp [QueryMetaserver.Init.idLoop, hp, idError, List.find?_cons, List.takeWhile_cons, hv]
    | some id =>
      have hv : validId s = true := by simp [validId, hp]
      have hid : id % 2 ^ 32 = id := Nat.mod_eq_of_lt (ParseUint32_lt s id hp)
      simp only [QueryMetaserver.Init.idLoop, hp, hid]
      rw [ih]
      simp [idError, List.find?_cons, List.takeWhile_cons, hv, rpcById, rowById, hp, setCol]

theorem addrLoop_eq (addrs : List String) (timeout : Nat) (retrytimes : Int)
    (l : List String) (mCmd : QueryMetaserver.MetaserverCommand) :
    QueryMetaserver.Init.addrLoop addrs timeout retrytimes l mCmd =
      (addrError l,
        { mCmd with
          Rpc := mCmd.Rpc ++ (l.takeWhile validAddr).map (rpcByAddr addrs timeout retrytimes)
          Rows := mCmd.Rows ++ (l.takeWhile validAddr).map rowByAddr }) := by
  induction l generalizing mCmd with
  | nil => simp [QueryMetaserver.Init.addrLoop, addrError]
  | cons a rest ih =>
    by_cases hlen : (strings.Split a ':').length = 2
    · cases hp : ParseUint32 ((strings.Split a ':').getD 1 "") with
      | none =>
        have hv : validAddr a = false := by
          unfold validAddr; rw [hlen, hp]; rfl
        have herr : addrError (a :: rest) =
            some (GoError.Errorf "unrecognized metaserver port: %s" [a]) := by
          unfold addrError
          rw [List.find?_cons, hv]
          simp only [Bool.not_false, Option.map_some', hlen, ne_eq, not_true_eq_false,
            if_false]
        simp only [QueryMetaserver.Init.addrLoop, hlen, hp, ne_eq, not_true_eq_false, if_false]
        rw [herr, List.takeWhile_cons, hv]
        simp
      | some port =>
        have hv : validAddr a = true := by
          unfold validAddr; rw [hlen, hp]; rfl
        have hport : port % 2 ^ 32 = port := Nat.mod_eq_of_lt (ParseUint32_lt _ port hp)
        have herr : addrError (a :: rest) = addrError rest := by
          unfold addrError
          rw [List.find?_cons, hv]
          rfl
        have hrpc : rpcByAddr addrs timeout retrytimes a =
            { Request := { MetaServerID := none,
                           HostIp := some ((strings.Split a ':').getD 0 ""),
                           Port := some port }
              Info := NewRpc addrs timeout retrytimes "GetMetaServerInfo" } := by
          unfold rpcByAddr; rw [hp]
        have hrow : setCol (setCol [] "id" "") "external addr" a = rowByAddr a := by
          simp [setCol, rowByAddr]
        simp only [QueryMetaserver.Init.addrLoop, hlen, hp, hport, ne_eq, not_true_eq_false,
          if_false]
        rw [ih, herr, List.takeWhile_cons, hv, hrow, ← hrpc]
        simp
    · have hv : validAddr a = false := by
        unfold validAddr
        simp [hlen]
      have herr : addrError (a :: rest) =
          some (GoError.Errorf "unrecognized metaserver addr: %s" [a]) := by
        unfold addrError
        rw [List.find?_cons, hv]
        simp only [Bool.not_false, Option.map_some', ne_eq, hlen, not_false_eq_true, if_true]
      simp only [QueryMetaserver.Init.addrLoop, ne_eq, hlen, not_false_eq_true, if_true]
      rw [herr, List.takeWhile_cons, hv]
      simp

theorem Init_by_addr (cfg : QueryConfig) (viper : Viper) (mds : List String × CmdError)
    (create : List String → Option GoError) (mCmd : QueryMetaserver.MetaserverCommand)
    (hmds : mds.2.TypeCode = CODE_SUCCESS)
    (htab : create ["id", "host name", "internal addr", "external addr", "online state"] = none)
    (hA : viper.IsSet cfg.VIPER_CURVEFS_METASERVERADDR = true)
    (hI : viper.IsSet cfg.VIPER_CURVEFS_METASERVERID = false) :
    QueryMetaserver.Init cfg viper mds create mCmd =
      if viper.GetStringSlice cfg.VIPER_CURVEFS_METASERVERADDR = [] then
        (some (requiredError cfg), mCmd)
      else
        (addrError (viper.GetStringSlice cfg.VIPER_CURVEFS_METASERVERADDR),
          { Rpc := mCmd.Rpc ++
              ((viper.GetStringSlice cfg.VIPER_CURVEFS_METASERVERADDR).takeWhile validAddr).map
                (rpcByAddr mds.1 (viper.GetDuration cfg.VIPER_GLOBALE_RPCTIMEOUT)
                  (viper.GetInt32 cfg.VIPER_GLOBALE_RPCRETRYTIMES))
            Rows :=
              ((viper.GetStringSlice cfg.VIPER_CURVEFS_METASERVERADDR).takeWhile validAddr).map
                rowByAddr
            Table := [] }) := by
  obtain ⟨addrs, addrErr⟩ := mds
  simp only at hmds
  unfold QueryMetaserver.Init
  simp only [hmds, hA, hI, ne_eq, not_true_eq_false, if_false, Bool.not_false, Bool.and_self,
    if_true, List.length_nil, and_true, List.length_eq_zero, htab, addrLoop_eq, idLoop_eq,
    requiredError]
  split
  · rfl
  · cases hE : addrError (viper.GetStringSlice cfg.VIPER_CURVEFS_METASERVERADDR) <;>
      simp [idError]

theorem Init_by_id (cfg : QueryConfig) (viper : Viper) (mds : List String × CmdError)
    (create : List String → Option GoError) (mCmd : QueryMetaserver.MetaserverCommand)
    (hmds : mds.2.TypeCode = CODE_SUCCESS)
    (htab : create ["id", "host name", "internal addr", "external addr", "online state"] = none)
    (hc : ¬ (viper.IsSet cfg.VIPER_CURVEFS_METASERVERADDR = true ∧
      viper.IsSet cfg.VIPER_CURVEFS_METASERVERID = false)) :
    QueryMetaserver.Init cfg viper mds create mCmd =
      if viper.GetStringSlice cfg.VIPER_CURVEFS_METASERVERID = [] then
        (some (requiredError cfg), mCmd)
      else
        (idError cfg (viper.GetStringSlice cfg.VIPER_CURVEFS_METASERVERID),
          { Rpc := mCmd.Rpc ++
              ((viper.GetStringSlice cfg.VIPER_CURVEFS_METASERVERID).takeWhile validId).map
                (rpcById mds.1 (viper.GetDuration cfg.VIPER_GLOBALE_RPCTIMEOUT)
                  (viper.GetInt32 cfg.VIPER_GLOBALE_RPCRETRYTIMES))
            Rows :=
              ((viper.GetStringSlice cfg.VIPER_CURVEFS_METASERVERID).takeWhile validId).map
                rowById
            Table := [] }) := by
  obtain ⟨addrs, addrErr⟩ := mds
  simp only at hmds
  have hcond : (viper.IsSet cfg.VIPER_CURVEFS_METASERVERADDR
      && !viper.IsSet cfg.VIPER_CURVEFS_METASERVERID) = false := by
    cases h1 : viper.IsSet cfg.VIPER_CURVEFS_METASERVERADDR <;>
      cases h2 : viper.IsSet cfg.VIPER_CURVEFS_METASERVERID <;> simp_all
  unfold QueryMetaserver.Init
  simp only [hmds, hcond, ne_eq, not_true_eq_false, if_false, List.length_nil, true_and,
    List.length_eq_zero, htab, addrLoop_eq, idLoop_eq, requiredError, Bool.false_eq_true]
  split
  · rfl
  · simp [addrError]

theorem idError_none_iff (cfg : QueryConfig) (ids : List String) :
    idError cfg ids = none ↔ ∀ s ∈ ids, validId s = true := by
  unfold idError
  rw [Option.map_eq_none', List.find?_eq_none]
  simp

theorem addrError_none_iff (l : List String) :
    addrError l = none ↔ ∀ s ∈ l, validAddr s = true := by
  unfold addrError
  rw [Option.map_eq_none', List.find?_eq_none]
  simp

theorem Init_required (cfg : QueryConfig) (viper : Viper) (mds : List String × CmdError)
    (create : List String → Option GoError) (mCmd : QueryMetaserver.MetaserverCommand)
    (hmds : mds.2.TypeCode = CODE_SUCCESS)
    (hsel : (if viper.IsSet cfg.VIPER_CURVEFS_METASERVERADDR
          && !viper.IsSet cfg.VIPER_CURVEFS_METASERVERID then
        viper.GetStringSlice cfg.VIPER_CURVEFS_METASERVERADDR
      else viper.GetStringSlice cfg.VIPER_CURVEFS_METASERVERID) = []) :
    QueryMetaserver.Init cfg viper mds create mCmd = (some (requiredError cfg), mCmd) := by
  obtain ⟨addrs, addrErr⟩ := mds
  simp only at hmds
  unfold QueryMetaserver.Init
  simp only [hmds, ne_eq, not_true_eq_false, if_false, requiredError]
  split at hsel
  · rename_i hc
    simp [hc, hsel]
  · rename_i hc
    simp [hc, hsel]

theorem Init_lookup_failed (cfg : QueryConfig) (viper : Viper) (mds : List String × CmdError)
    (create : List String → Option GoError) (mCmd : QueryMetaserver.MetaserverCommand)
    (hmds : mds.2.TypeCode ≠ CODE_SUCCESS) :
    QueryMetaserver.Init cfg viper mds create mCmd =
      (some (GoError.Errorf mds.2.Message []), mCmd) := by
  obtain ⟨addrs, addrErr⟩ := mds
  simp only at hmds
  unfold QueryMetaserver.Init
  simp [hmds]

/-- C13, as the code behaves when the MDS address lookup fails: `Init` returns the error of
the lookup before it selects anything. With neither list set (an empty selection) the error
is not the "is required" one, and with both lists set (ids `1` and `2`) no request and no
row is built. -/
theorem Init_lookup_error_first :
    failedMds.2.TypeCode ≠ CODE_SUCCESS ∧
    QueryMetaserver.Init sampleQueryConfig noneSet failedMds sampleCreate emptyQuery =
      (some (GoError.Errorf "no mds address" []), emptyQuery) ∧
    GoError.Errorf "no mds address" [] ≠ requiredError sampleQueryConfig ∧
    bothSet.GetStringSlice sampleQueryConfig.VIPER_CURVEFS_METASERVERID = ["1", "2"] ∧
    QueryMetaserver.Init sampleQueryConfig bothSet failedMds sampleCreate emptyQuery =
      (some (GoError.Errorf "no mds address" []), emptyQuery) := by
  decide

/-- C13, amended: target selection of the query command. When the MDS address lookup
fails, `Init` returns the error of the lookup and leaves the command as it was. When it
succeeds: an empty selected list makes `Init` fail with the "is required" error and leave
the command as it was; and once the table is created, the selected list is the address list
exactly when `metaserveraddr` is set and `metaserverid` is not, and the id list otherwise
(so with both set only the ids are used). `Init` then builds, in order, one request and one
row for every text of the selected list up to the first text that is not accepted
(requests by address carry a host and a port and no id, requests by id carry an id and no
host or port), returns the error about that text, and returns `nil` exactly when every
text is accepted, having built one request and one row per text. -/
theorem Init_selects (cfg : QueryConfig) (viper : Viper) (mds : List String × CmdError)
    (create : List String → Option GoError) (mCmd : QueryMetaserver.MetaserverCommand) :
    (mds.2.TypeCode ≠ CODE_SUCCESS →
      QueryMetaserver.Init cfg viper mds create mCmd =
        (some (GoError.Errorf mds.2.Message []), mCmd)) ∧
    (mds.2.TypeCode = CODE_SUCCESS →
      (viper.IsSet cfg.VIPER_CURVEFS_METASERVERADDR = true →
        viper.IsSet cfg.VIPER_CURVEFS_METASERVERID = false →
        viper.GetStringSlice cfg.VIPER_CURVEFS_METASERVERADDR = [] →
        QueryMetaserver.Init cfg viper mds create mCmd = (some (requiredError cfg), mCmd)) ∧
      (¬ (viper.IsSet cfg.VIPER_CURVEFS_METASERVERADDR = true ∧
          viper.IsSet cfg.VIPER_CURVEFS_METASERVERID = false) →
        viper.GetStringSlice cfg.VIPER_CURVEFS_METASERVERID = [] →
        QueryMetaserver.Init cfg viper mds create mCmd = (some (requiredError cfg), mCmd)) ∧
      (create ["id", "host name", "internal addr", "external addr", "online state"] = none →
        (viper.IsSet cfg.VIPER_CURVEFS_METASERVERADDR = true →
          viper.IsSet cfg.VIPER_CURVEFS_METASERVERID = false →
          viper.GetStringSlice cfg.VIPER_CURVEFS_METASERVERADDR ≠ [] →
          QueryMetaserver.Init cfg viper mds create mCmd =
            (addrError (viper.GetStringSlice cfg.VIPER_CURVEFS_METASERVERADDR),
              { Rpc := mCmd.Rpc ++
                  ((viper.GetStringSlice cfg.VIPER_CURVEFS_METASERVERADDR).takeWhile
                    validAddr).map
                    (rpcByAddr mds.1 (viper.GetDuration cfg.VIPER_GLOBALE_RPCTIMEOUT)
                      (viper.GetInt32 cfg.VIPER_GLOBALE_RPCRETRYTIMES))
                Rows :=
                  ((viper.GetStringSlice cfg.VIPER_CURVEFS_METASERVERADDR).takeWhile
                    validAddr).map rowByAddr
                Table := [] }) ∧
          (addrError (viper.GetStringSlice cfg.VIPER_CURVEFS_METASERVERADDR) = none ↔
            ∀ s ∈ viper.GetStringSlice cfg.VIPER_CURVEFS_METASERVERADDR, validAddr s = true) ∧
          ((∀ s ∈ viper.GetStringSlice cfg.VIPER_CURVEFS_METASERVERADDR, validAddr s = true) →
            QueryMetaserver.Init cfg viper mds create mCmd =
              (none,
                { Rpc := mCmd.Rpc ++
                    (viper.GetStringSlice cfg.VIPER_CURVEFS_METASERVERADDR).map
                      (rpcByAddr mds.1 (viper.GetDuration cfg.VIPER_GLOBALE_RPCTIMEOUT)
                        (viper.GetInt32 cfg.VIPER_GLOBALE_RPCRETRYTIMES))
                  Rows := (viper.GetStringSlice cfg.VIPER_CURVEFS_METASERVERADDR).map rowByAddr
                  Table := [] }))) ∧
        (¬ (viper.IsSet cfg.VIPER_CURVEFS_METASERVERADDR = true ∧
            viper.IsSet cfg.VIPER_CURVEFS_METASERVERID = false) →
          viper.GetStringSlice cfg.VIPER_CURVEFS_METASERVERID ≠ [] →
          QueryMetaserver.Init cfg viper mds create mCmd =
            (idError cfg (viper.GetStringSlice cfg.VIPER_CURVEFS_METASERVERID),
              { Rpc := mCmd.Rpc ++
                  ((viper.GetStringSlice cfg.VIPER_CURVEFS_METASERVERID).takeWhile validId).map
                    (rpcById mds.1 (viper.GetDuration cfg.VIPER_GLOBALE_RPCTIMEOUT)
                      (viper.GetInt32 cfg.VIPER_GLOBALE_RPCRETRYTIMES))
                Rows :=
                  ((viper.GetStringSlice cfg.VIPER_CURVEFS_METASERVERID).takeWhile validId).map
                    rowById
                Table := [] }) ∧
          (idError cfg (viper.GetStringSlice cfg.VIPER_CURVEFS_METASERVERID) = none ↔
            ∀ s ∈ viper.GetStringSlice cfg.VIPER_CURVEFS_METASERVERID, validId s = true) ∧
          ((∀ s ∈ viper.GetStringSlice cfg.VIPER_CURVEFS_METASERVERID, validId s = true) →
            QueryMetaserver.Init cfg viper mds create mCmd =
              (none,
                { Rpc := mCmd.Rpc ++
                    (viper.GetStringSlice cfg.VIPER_CURVEFS_METASERVERID).map
                      (rpcById mds.1 (viper.GetDuration cfg.VIPER_GLOBALE_RPCTIMEOUT)
                        (viper.GetInt32 cfg.VIPER_GLOBALE_RPCRETRYTIMES))
                  Rows := (viper.GetStringSlice cfg.VIPER_CURVEFS_METASERVERID).map rowById
                  Table := [] }))) ∧
        (∀ (l : List String) (s : String),
          (rpcByAddr mds.1 (viper.GetDuration cfg.VIPER_GLOBALE_RPCTIMEOUT)
              (viper.GetInt32 cfg.VIPER_GLOBALE_RPCRETRYTIMES) s).Request.HostIp ≠ none ∧
          (rpcByAddr mds.1 (viper.GetDuration cfg.VIPER_GLOBALE_RPCTIMEOUT)
              (viper.GetInt32 cfg.VIPER_GLOBALE_RPCRETRYTIMES) s).Request.MetaServerID
            = none ∧
          (rpcById mds.1 (viper.GetDuration cfg.VIPER_GLOBALE_RPCTIMEOUT)
              (viper.GetInt32 cfg.VIPER_GLOBALE_RPCRETRYTIMES) s).Request.HostIp = none ∧
          (rpcById mds.1 (viper.GetDuration cfg.VIPER_GLOBALE_RPCTIMEOUT)
              (viper.GetInt32 cfg.VIPER_GLOBALE_RPCRETRYTIMES) s).Request.Port = none ∧
          (s ∈ l.takeWhile validAddr →
            (rpcByAddr mds.1 (viper.GetDuration cfg.VIPER_GLOBALE_RPCTIMEOUT)
              (viper.GetInt32 cfg.VIPER_GLOBALE_RPCRETRYTIMES) s).Request.Port ≠ none) ∧
          (s ∈ l.takeWhile validId →
            (rpcById mds.1 (viper.GetDuration cfg.VIPER_GLOBALE_RPCTIMEOUT)
              (viper.GetInt32 cfg.VIPER_GLOBALE_RPCRETRYTIMES) s).Request.MetaServerID
              ≠ none)))) := by
  refine ⟨Init_lookup_failed cfg viper mds create mCmd, fun hmds => ⟨?_, ?_, fun htab => ?_⟩⟩
  · intro hA hI hnil
    exact Init_required cfg viper mds create mCmd hmds (by simp [hA, hI, hnil])
  · intro hc hnil
    apply Init_required cfg viper mds create mCmd hmds
    split
    · rename_i h
      simp only [Bool.and_eq_true, Bool.not_eq_true'] at h
      exact absurd h hc
    · exact hnil
  · refine ⟨?_, ?_, ?_⟩
    · intro hA hI hne
      have hE := Init_by_addr cfg viper mds create mCmd hmds htab hA hI
      rw [if_neg hne] at hE
      refine ⟨hE, addrError_none_iff _, fun hall => ?_⟩
      rw [hE, (addrError_none_iff _).mpr hall, List.takeWhile_eq_self_iff.mpr hall]
    · intro hc hne
      have hE := Init_by_id cfg viper mds create mCmd hmds htab hc
      rw [if_neg hne] at hE
      refine ⟨hE, idError_none_iff cfg _, fun hall => ?_⟩
      rw [hE, (idError_none_iff cfg _).mpr hall, List.takeWhile_eq_self_iff.mpr hall]
    · intro l s
      refine ⟨by simp [rpcByAddr], rfl, rfl, rfl, ?_, ?_⟩
      · intro hs
        have hv := List.mem_takeWhile_imp hs
        simp only [validAddr, Bool.and_eq_true, decide_eq_true_eq] at hv
        simp only [rpcByAddr, ne_eq]
        intro hnone
        rw [hnone] at hv
        exact absurd hv.2 (by simp)
      · intro hs
        have hv := List.mem_takeWhile_imp hs
        simp only [validId] at hv
        simp only [rpcById, ne_eq]
        intro hnone
        rw [hnone] at hv
        exact absurd hv (by simp)

/-- C13 amended, at the samples: with only the address list set (two addresses) `Init`
builds the two requests by address and their rows; with both lists set (ids `1` and `2`, one
address) it builds the two requests by id and their rows and nothing for the address. -/
theorem Init_selects_witness :
    sampleMds.2.TypeCode = CODE_SUCCESS ∧
    sampleCreate ["id", "host name", "internal addr", "external addr", "online state"] = none ∧
    QueryMetaserver.Init sampleQueryConfig addrOnly sampleMds sampleCreate emptyQuery =
      (none,
        { Rpc :=
            [ { Info := NewRpc ["10.0.0.9:6700"] 5000 3 "GetMetaServerInfo"
                Request := { MetaServerID := none, HostIp := some "10.0.0.1",
                             Port := some 6700 } },
              { Info := NewRpc ["10.0.0.9:6700"] 5000 3 "GetMetaServerInfo"
                Request := { MetaServerID := none, HostIp := some "10.0.0.2",
                             Port := some 6701 } } ]
          Rows := [[("id", ""), ("external addr", "10.0.0.1:6700")],
            [("id", ""), ("external addr", "10.0.0.2:6701")]]
          Table := [] }) ∧
    QueryMetaserver.Init sampleQueryConfig bothSet sampleMds sampleCreate emptyQuery =
      (none,
        { Rpc :=
            [ { Info := NewRpc ["10.0.0.9:6700"] 5000 3 "GetMetaServerInfo"
                Request := { MetaServerID := some 1, HostIp := none, Port := none } },
              { Info := NewRpc ["10.0.0.9:6700"] 5000 3 "GetMetaServerInfo"
                Request := { MetaServerID := some 2, HostIp := none, Port := none } } ]
          Rows := [[("id", "1"), ("external addr", "")], [("id", "2"), ("external addr", "")]]
          Table := [] }) :=
  ⟨rfl, rfl,
    ((((Init_selects sampleQueryConfig addrOnly sampleMds sampleCreate emptyQuery).2 rfl).2.2
      rfl).1 (by decide) (by decide) (by decide)).2.2 (by decide) |>.trans (by decide),
    ((((Init_selects sampleQueryConfig bothSet sampleMds sampleCreate emptyQuery).2 rfl).2.2
      rfl).2.1 (by decide) (by decide)).2.2 (by decide) |>.trans (by decide)⟩

/-! ## Theorems: the status command -/

theorem foldl_rowStep (offline : String → CmdError) (res : MetricResult) (rows acc : List Row)
    (errs : List CmdError) :
    rows.foldl (StatusMetaserver.RunCommand.rowStep offline res) (acc, errs) =
      (acc ++ rows.map (updateRow res), errs ++ offlineErrors offline rows.length res) := by
  induction rows generalizing acc errs with
  | nil =>
    unfold offlineErrors
    split <;> simp
  | cons row rest ih =>
    rw [List.foldl_cons]
    by_cases hok : res.Err.TypeCode = CODE_SUCCESS
    · have hoff : ∀ n, offlineErrors offline n res = [] := by
        intro n; simp [offlineErrors, hok]
      by_cases haddr : getCol row "externalAddr" = res.Addr
      · by_cases hk : res.Key = "status"
        · have hstep : StatusMetaserver.RunCommand.rowStep offline res (acc, errs) row =
              (acc ++ [updateRow res row], errs) := by
            simp [StatusMetaserver.RunCommand.rowStep, updateRow, hok, haddr, hk]
          rw [hstep, ih, hoff, hoff]
          simp
        · have hstep : StatusMetaserver.RunCommand.rowStep offline res (acc, errs) row =
              (acc ++ [updateRow res row], errs) := by
            simp [StatusMetaserver.RunCommand.rowStep, updateRow, hok, haddr, hk]
          rw [hstep, ih, hoff, hoff]
          simp
      · have hstep : StatusMetaserver.RunCommand.rowStep offline res (acc, errs) row =
            (acc ++ [updateRow res row], errs) := by
          simp [StatusMetaserver.RunCommand.rowStep, updateRow, hok, haddr]
        rw [hstep, ih, hoff, hoff]
        simp
    · have hstep : StatusMetaserver.RunCommand.rowStep offline res (acc, errs) row =
          (acc ++ [updateRow res row], errs ++ [offline res.Addr]) := by
        simp [StatusMetaserver.RunCommand.rowStep, updateRow, hok]
      rw [hstep, ih]
      simp [offlineErrors, hok, List.replicate_succ]

theorem recv_eq (offline : String → CmdError) (size : Nat) (arrivals : List MetricResult)
    (count : Nat) (errs : List CmdError) (rows : List Row)
    (hne : arrivals ≠ []) (hlen : count + arrivals.length = size) :
    StatusMetaserver.RunCommand.recv offline size arrivals count errs rows =
      some (errs ++ arrivals.flatMap (offlineErrors offline rows.length),
        rows.map (fun row => arrivals.foldl (fun row res => updateRow res row) row)) := by
  induction arrivals generalizing count errs rows with
  | nil => exact absurd rfl hne
  | cons res rest ih =>
    simp only [StatusMetaserver.RunCommand.recv, foldl_rowStep, List.nil_append]
    by_cases hdone : count + 1 ≥ size
    · have hrest : rest = [] := by
        apply List.eq_nil_of_length_eq_zero
        simp only [List.length_cons] at hlen
        omega
      subst hrest
      rw [if_pos hdone]
      simp
    · have hrest : rest ≠ [] := by
        intro h
        subst h
        simp only [List.length_cons, List.length_nil] at hlen
        omega
      rw [if_neg hdone, ih (count + 1) _ _ hrest (by simp only [List.length_cons] at hlen; omega)]
      simp [List.flatMap_cons, List.append_assoc, Function.comp]

theorem length_offlineErrors (offline : String → CmdError) (r : Nat)
    (arrivals : List MetricResult) :
    (arrivals.flatMap (offlineErrors offline r)).length = arrivals.countP failed * r := by
  induction arrivals with
  | nil => simp
  | cons res rest ih =>
    rw [List.flatMap_cons, List.length_append, ih, List.countP_cons]
    by_cases hok : res.Err.TypeCode = CODE_SUCCESS
    · simp [offlineErrors, failed, hok]
    · simp [offlineErrors, failed, hok, Nat.add_mul, Nat.add_comm]

theorem RunCommand_eq_some (offline : String → CmdError) (M : List CmdError → CmdError)
    (arrivals : List MetricResult) (mCmd : StatusMetaserver.MetaserverCommand)
    (hlen : arrivals.length = mCmd.metrics.length) (hne : arrivals ≠ []) :
    StatusMetaserver.RunCommand offline M arrivals mCmd =
      some { mCmd with
        rows := mCmd.rows.map (fun row => arrivals.foldl (fun row res => updateRow res row) row)
        Error := M (arrivals.flatMap (offlineErrors offline mCmd.rows.length))
        Table := mCmd.Table ++
          mCmd.rows.map (fun row => arrivals.foldl (fun row res => updateRow res row) row) } := by
  have h := recv_eq offline mCmd.metrics.length arrivals 0 [] mCmd.rows hne (by omega)
  simp only [StatusMetaserver.RunCommand, h, List.nil_append]

/-- C14: the offline errors of the receive loop. When one result arrives per metric and
there is at least one, `RunCommand` ends, and the list it hands to `MostImportantCmdError`
is the concatenation, over the results in order of arrival, of one offline error formatted
with the address of the result for every row of the table when the fetch failed (whatever
the addresses of the rows) and of nothing when it succeeded. With `f` failed results and `r`
rows the list has `f * r` entries: none when there is no row, and more than `f` when there
are several rows and a failure. -/
theorem RunCommand_offline_errors (offline : String → CmdError)
    (M : List CmdError → CmdError) (arrivals : List MetricResult)
    (mCmd : StatusMetaserver.MetaserverCommand)
    (hlen : arrivals.length = mCmd.metrics.length) (hne : arrivals ≠ []) :
    (∃ mCmd', StatusMetaserver.RunCommand offline M arrivals mCmd = some mCmd' ∧
      mCmd'.Error = M (arrivals.flatMap (offlineErrors offline mCmd.rows.length))) ∧
    (∀ res, failed res = true →
      offlineErrors offline mCmd.rows.length res =
        List.replicate mCmd.rows.length (offline res.Addr)) ∧
    (∀ res, failed res = false → offlineErrors offline mCmd.rows.length res = []) ∧
    (arrivals.flatMap (offlineErrors offline mCmd.rows.length)).length =
      arrivals.countP failed * mCmd.rows.length ∧
    (mCmd.rows = [] → arrivals.flatMap (offlineErrors offline mCmd.rows.length) = []) ∧
    (1 < mCmd.rows.length → 0 < arrivals.countP failed →
      arrivals.countP failed <
        (arrivals.flatMap (offlineErrors offline mCmd.rows.length)).length) := by
  refine ⟨⟨_, RunCommand_eq_some offline M arrivals mCmd hlen hne, rfl⟩, ?_, ?_,
    length_offlineErrors offline _ arrivals, ?_, ?_⟩
  · intro res hres
    simp only [failed, decide_eq_true_eq] at hres
    simp [offlineErrors, hres]
  · intro res hres
    simp only [failed, decide_eq_false_iff_not, not_not] at hres
    simp [offlineErrors, hres]
  · intro hrows
    apply List.eq_nil_of_length_eq_zero
    rw [length_offlineErrors, hrows]
    simp
  · intro hr hf
    rw [length_offlineErrors]
    calc arrivals.countP failed = arrivals.countP failed * 1 := (Nat.mul_one _).symm
      _ < arrivals.countP failed * mCmd.rows.length := Nat.mul_lt_mul_of_pos_left hr hf

/-- C14 at the sample: two rows and four results of which two failed, so four offline
errors, two for each failed fetch. -/
theorem RunCommand_offline_errors_witness :
    sampleArrivals.length = twoStatus.metrics.length ∧ sampleArrivals ≠ [] ∧
    (sampleArrivals.flatMap (offlineErrors sampleOffline twoStatus.rows.length)).length =
      sampleArrivals.countP failed * twoStatus.rows.length ∧
    sampleArrivals.countP failed = 2 ∧ twoStatus.rows.length = 2 :=
  have hlen : sampleArrivals.length = twoStatus.metrics.length := by decide
  have hne : sampleArrivals ≠ [] := by decide
  ⟨hlen, hne,
    (RunCommand_offline_errors sampleOffline sampleMerge sampleArrivals twoStatus hlen
      hne).2.2.2.1,
    by decide, by decide⟩

theorem updateRow_statusRow (res : MetricResult) (e i st v : String)
    (hkey : res.Key = "status" ∨ res.Key = "version") :
    updateRow res (statusRow e i st v) =
      statusRow e i
        (if res.Err.TypeCode = CODE_SUCCESS ∧ res.Addr = e ∧ res.Key = "status" then "online"
          else st)
        (if res.Err.TypeCode = CODE_SUCCESS ∧ res.Addr = e ∧ res.Key = "version" then res.Value
          else v) := by
  have hget : getCol (statusRow e i st v) "externalAddr" = e := by
    simp [getCol, statusRow, List.lookup]
  unfold updateRow
  rw [hget]
  by_cases hok : res.Err.TypeCode = CODE_SUCCESS
  · by_cases haddr : e = res.Addr
    · subst haddr
      rcases hkey with hk | hk
      · simp [hok, hk, statusRow, setCol]
      · simp [hok, hk, statusRow, setCol]
    · have haddr' : ¬ res.Addr = e := fun h => haddr h.symm
      simp [hok, haddr, haddr']
  · simp [hok]

theorem foldl_updateRow (rs rv : MetricResult) (e i : String)
    (hrs : rs.Addr = e ∧ rs.Key = "status") (hrv : rv.Addr = e ∧ rv.Key = "version")
    (L : List MetricResult)
    (hL : ∀ res ∈ L, (res.Key = "status" ∨ res.Key = "version") ∧
      (res.Addr = e → res.Key = "status" → res = rs) ∧
      (res.Addr = e → res.Key = "version" → res = rv))
    (st v : String) :
    L.foldl (fun row res => updateRow res row) (statusRow e i st v) =
      statusRow e i
        (if rs ∈ L ∧ rs.Err.TypeCode = CODE_SUCCESS then "online" else st)
        (if rv ∈ L ∧ rv.Err.TypeCode = CODE_SUCCESS then rv.Value else v) := by
  induction L generalizing st v with
  | nil => simp
  | cons x L ih =>
    have hx := hL x (List.mem_cons_self _ _)
    have hL' : ∀ res ∈ L, (res.Key = "status" ∨ res.Key = "version") ∧
        (res.Addr = e → res.Key = "status" → res = rs) ∧
        (res.Addr = e → res.Key = "version" → res = rv) :=
      fun res hres => hL res (List.mem_cons_of_mem _ hres)
    have hsv : ("status" : String) ≠ "version" := by decide
    rw [List.foldl_cons, updateRow_statusRow x e i st v hx.1, ih hL']
    congr 1
    · by_cases hc : x.Err.TypeCode = CODE_SUCCESS ∧ x.Addr = e ∧ x.Key = "status"
      · have hxs : x = rs := hx.2.1 hc.2.1 hc.2.2
        have h1 : rs ∈ x :: L := by rw [← hxs]; exact List.mem_cons_self _ _
        have h2 : rs.Err.TypeCode = CODE_SUCCESS := by rw [← hxs]; exact hc.1
        rw [if_pos hc, ite_self, if_pos ⟨h1, h2⟩]
      · rw [if_neg hc]
        by_cases hmem : rs ∈ L ∧ rs.Err.TypeCode = CODE_SUCCESS
        · rw [if_pos hmem, if_pos ⟨List.mem_cons_of_mem _ hmem.1, hmem.2⟩]
        · rw [if_neg hmem, if_neg]
          rintro ⟨hin, hok⟩
          rcases List.mem_cons.mp hin with heq | hin'
          · subst heq
            exact hc ⟨hok, hrs.1, hrs.2⟩
          · exact hmem ⟨hin', hok⟩
    · by_cases hc : x.Err.TypeCode = CODE_SUCCESS ∧ x.Addr = e ∧ x.Key = "version"
      · have hxv : x = rv := hx.2.2 hc.2.1 hc.2.2
        have h2 : rv.Err.TypeCode = CODE_SUCCESS := by rw [← hxv]; exact hc.1
        rw [if_pos hc, hxv, ite_self, if_pos ⟨List.mem_cons_self _ _, h2⟩]
      · rw [if_neg hc]
        by_cases hmem : rv ∈ L ∧ rv.Err.TypeCode = CODE_SUCCESS
        · rw [if_pos hmem, if_pos ⟨List.mem_cons_of_mem _ hmem.1, hmem.2⟩]
        · rw [if_neg hmem, if_neg]
          rintro ⟨hin, hok⟩
          rcases List.mem_cons.mp hin with heq | hin'
          · subst heq
            exact hc ⟨hok, hrv.1, hrv.2⟩
          · exact hmem ⟨hin', hok⟩

theorem Init_loop_eq (V : String → Bool) (t : Nat) (int ext : List String) (i : Nat)
    (mCmd : StatusMetaserver.MetaserverCommand)
    (hvalid : ∀ a ∈ ext, V a = true) (hint : i + ext.length ≤ int.length) :
    StatusMetaserver.Init.loop V t int ext i mCmd =
      (Outcome.returned none,
        { mCmd with
          metrics := mCmd.metrics ++
            ext.flatMap (fun a => [NewMetric [a] STATUS_SUBURI t, NewMetric [a] VERSION_SUBURI t])
          rows := mCmd.rows ++
            List.zipWith (fun e n => statusRow e n "offline" "unknown") ext (int.drop i) }) := by
  induction ext generalizing i mCmd with
  | nil => simp [StatusMetaserver.Init.loop]
  | cons a rest ih =>
    have ha : V a = true := hvalid a (List.mem_cons_self _ _)
    have hrest : ∀ b ∈ rest, V b = true := fun b hb => hvalid b (List.mem_cons_of_mem _ hb)
    simp only [List.length_cons] at hint
    have hi : i < int.length := by omega
    have hget : int[i]? = some int[i] := List.getElem?_eq_getElem hi
    have hdrop : int.drop i = int[i] :: int.drop (i + 1) := List.drop_eq_getElem_cons hi
    have hrow : setCol (setCol (setCol (setCol [] "externalAddr" a) "internalAddr" int[i])
        "status" "offline") "version" "unknown" = statusRow a int[i] "offline" "unknown" := by
      simp [setCol, statusRow]
    simp only [StatusMetaserver.Init.loop, ha, Bool.not_true, Bool.false_eq_true, if_false,
      hget, hrow]
    rw [ih (i + 1) _ hrest (by omega)]
    simp [List.flatMap_cons, List.append_assoc]
    rw [hdrop, List.zipWith_cons_cons]

theorem worker_eq_fetch (Q : Metric → String × CmdError) (G : String → String × CmdError)
    (t : Nat) (a sub : String) :
    StatusMetaserver.RunCommand.worker Q G (NewMetric [a] sub t) = some (fetch Q G t a sub) := by
  unfold StatusMetaserver.RunCommand.worker fetch
  by_cases hok : (Q (NewMetric [a] sub t)).2.TypeCode = CODE_SUCCESS
  · simp [NewMetric, hok] at hok ⊢
  · simp only [NewMetric] at hok ⊢
    simp [hok]

theorem map_zipWith_of_mem {α β γ δ : Type} (f : γ → δ) (g : α → β → γ) (h : α → β → δ)
    (l₁ : List α) (l₂ : List β) (hfg : ∀ a ∈ l₁, ∀ b, f (g a b) = h a b) :
    (List.zipWith g l₁ l₂).map f = List.zipWith h l₁ l₂ := by
  induction l₁ generalizing l₂ with
  | nil => simp
  | cons a as ih =>
    cases l₂ with
    | nil => simp
    | cons b bs =>
      simp only [List.zipWith_cons_cons, List.map_cons]
      rw [hfg a (List.mem_cons_self _ _) b,
        ih bs (fun x hx y => hfg x (List.mem_cons_of_mem _ hx) y)]

theorem Init_eq_ok (addrs : List String × List String × CmdError)
    (create : List String → Option GoError) (V : String → Bool) (t : Nat)
    (mCmd : StatusMetaserver.MetaserverCommand)
    (herr : addrs.2.2.TypeCode = CODE_SUCCESS)
    (hcreate : create ["externalAddr", "internalAddr", "version", "status"] = none)
    (hvalid : ∀ a ∈ addrs.1, V a = true) (hint : addrs.1.length ≤ addrs.2.1.length)
    (hm : mCmd.metrics = []) (hr : mCmd.rows = []) :
    StatusMetaserver.Init addrs create V t mCmd =
      (Outcome.returned none,
        { metrics := addrs.1.flatMap
            (fun a => [NewMetric [a] STATUS_SUBURI t, NewMetric [a] VERSION_SUBURI t])
          rows := List.zipWith (fun e n => statusRow e n "offline" "unknown") addrs.1 addrs.2.1
          Table := []
          Error := mCmd.Error }) := by
  obtain ⟨ext, int, e⟩ := addrs
  simp only at herr hvalid hint
  unfold StatusMetaserver.Init
  simp only [herr, ne_eq, not_true_eq_false, if_false, hcreate]
  rw [Init_loop_eq V t int ext 0 _ hvalid (by omega)]
  simp [hm, hr]

/-- Order independence of the receive loop for at least one target. After a successful
`Init` on a fresh command with at least one external address, whatever the order in which
the results of the goroutines arrive, `RunCommand` ends with one row per address: the row of
an address is online exactly when its status fetch succeeded and carries the fetched version
exactly when its version fetch succeeded. -/
theorem RunCommand_order_independent (Q : Metric → String × CmdError)
    (G : String → String × CmdError) (offline : String → CmdError)
    (M : List CmdError → CmdError) (addrs : List String × List String × CmdError)
    (create : List String → Option GoError) (V : String → Bool) (t : Nat)
    (mCmd : StatusMetaserver.MetaserverCommand) (arrivals : List MetricResult)
    (herr : addrs.2.2.TypeCode = CODE_SUCCESS)
    (hcreate : create ["externalAddr", "internalAddr", "version", "status"] = none)
    (hvalid : ∀ a ∈ addrs.1, V a = true) (hint : addrs.1.length ≤ addrs.2.1.length)
    (hm : mCmd.metrics = []) (hr : mCmd.rows = []) (hne : addrs.1 ≠ [])
    (harr : (arrivals.map some).Perm
      ((StatusMetaserver.Init addrs create V t mCmd).2.metrics.map
        (StatusMetaserver.RunCommand.worker Q G))) :
    (StatusMetaserver.Init addrs create V t mCmd).1 = Outcome.returned none ∧
    ∃ mCmd', StatusMetaserver.RunCommand offline M arrivals
        (StatusMetaserver.Init addrs create V t mCmd).2 = some mCmd' ∧
      mCmd'.rows = List.zipWith (finalRow Q G t) addrs.1 addrs.2.1 ∧
      mCmd'.rows.length = addrs.1.length := by
  rw [Init_eq_ok addrs create V t mCmd herr hcreate hvalid hint hm hr] at harr ⊢
  simp only at harr ⊢
  have hworkers : (addrs.1.flatMap
      (fun a => [NewMetric [a] STATUS_SUBURI t, NewMetric [a] VERSION_SUBURI t])).map
        (StatusMetaserver.RunCommand.worker Q G) =
      (addrs.1.flatMap
        (fun a => [fetch Q G t a STATUS_SUBURI, fetch Q G t a VERSION_SUBURI])).map some := by
    generalize addrs.1 = ext
    induction ext with
    | nil => rfl
    | cons a rest ih =>
      simp only [List.flatMap_cons, List.map_append, ih, List.map_cons, List.map_nil,
        worker_eq_fetch]
  rw [hworkers] at harr
  have hmem : ∀ res, res ∈ arrivals ↔
      ∃ a ∈ addrs.1, res = fetch Q G t a STATUS_SUBURI ∨ res = fetch Q G t a VERSION_SUBURI := by
    intro res
    have h1 : some res ∈ arrivals.map some ↔ res ∈ arrivals := by simp
    rw [← h1, harr.mem_iff]
    simp only [List.mem_map, Option.some.injEq, exists_eq_right, List.mem_flatMap,
      List.mem_cons, List.mem_singleton, List.not_mem_nil, or_false]
  have hlen : arrivals.length = (addrs.1.flatMap
      (fun a => [NewMetric [a] STATUS_SUBURI t, NewMetric [a] VERSION_SUBURI t])).length := by
    have := harr.length_eq
    rw [List.length_map, ← hworkers, List.length_map] at this
    exact this
  have hnonempty : arrivals ≠ [] := by
    obtain ⟨a, rest, hcons⟩ := List.exists_cons_of_ne_nil hne
    intro hnil
    have : fetch Q G t a STATUS_SUBURI ∈ arrivals :=
      (hmem _).mpr ⟨a, by rw [hcons]; exact List.mem_cons_self _ _, Or.inl rfl⟩
    rw [hnil] at this
    exact List.not_mem_nil _ this
  have hsv : STATUS_SUBURI ≠ VERSION_SUBURI := by decide
  have hrows : ∀ e ∈ addrs.1, ∀ n,
      arrivals.foldl (fun row res => updateRow res row) (statusRow e n "offline" "unknown") =
        finalRow Q G t e n := by
    intro e he n
    have hfold := foldl_updateRow (fetch Q G t e STATUS_SUBURI) (fetch Q G t e VERSION_SUBURI)
      e n ⟨rfl, by simp [fetch]⟩ ⟨rfl, by simp [fetch, hsv.symm]⟩ arrivals
      (by
        intro res hres
        obtain ⟨a, _, hra | hra⟩ := (hmem res).mp hres
        · subst hra
          refine ⟨Or.inl (by simp [fetch]), fun hae _ => ?_, fun _ hk => ?_⟩
          · have : a = e := hae
            rw [this]
          · simp [fetch] at hk
        · subst hra
          refine ⟨Or.inr (by simp [fetch, hsv.symm]), fun _ hk => ?_, fun hae _ => ?_⟩
          · simp [fetch, hsv.symm] at hk
          · have : a = e := hae
            rw [this])
      "offline" "unknown"
    rw [hfold]
    have h1 : fetch Q G t e STATUS_SUBURI ∈ arrivals := (hmem _).mpr ⟨e, he, Or.inl rfl⟩
    have h2 : fetch Q G t e VERSION_SUBURI ∈ arrivals := (hmem _).mpr ⟨e, he, Or.inr rfl⟩
    simp only [h1, h2, true_and, finalRow]
  refine ⟨trivial, ?_⟩
  refine ⟨_, RunCommand_eq_some offline M arrivals _ hlen hnonempty, ?_, ?_⟩
  · simp only
    exact map_zipWith_of_mem _ _ _ _ _ hrows
  · simp only
    rw [map_zipWith_of_mem _ _ _ _ _ hrows, List.length_zipWith]
    omega

/-- The two sample orders of arrival leave the same rows: the first metaserver online with
its version, the second offline with an unknown version. -/
theorem RunCommand_two_orders :
    (StatusMetaserver.RunCommand sampleOffline sampleMerge sampleArrivals twoStatus).map
        (fun m => m.rows) =
      some [statusRow "10.0.0.1:6701" "10.0.0.1:6700" "online" "v2.3",
        statusRow "10.0.0.2:6701" "10.0.0.2:6700" "offline" "unknown"] ∧
    (StatusMetaserver.RunCommand sampleOffline sampleMerge sampleArrivalsB twoStatus).map
        (fun m => m.rows) =
      some [statusRow "10.0.0.1:6701" "10.0.0.1:6700" "online" "v2.3",
        statusRow "10.0.0.2:6701" "10.0.0.2:6700" "offline" "unknown"] := by
  decide

/-- C11, as the code behaves without targets: when the address lookup returns no
metaserver, `Init` succeeds and builds no metric and no row, no goroutine sends a result,
and the receive loop of `RunCommand` blocks on its first receive: it does not end. -/
theorem RunCommand_blocks_without_targets :
    StatusMetaserver.Init noServers sampleCreate anyAddr 500 emptyStatus =
      (Outcome.returned none, emptyStatus) ∧
    emptyStatus.metrics.map (StatusMetaserver.RunCommand.worker sampleQuery sampleValue) = [] ∧
    StatusMetaserver.RunCommand sampleOffline sampleMerge [] emptyStatus = none := by
  decide

end Curve
